import Mathlib

set_option maxRecDepth 20000

/-!
Shallow embedding of `src/local-server/main.py` (a Missive MCP server).

The file models the ten tool handlers of the server.  Each handler is a
total Lean function of
  * the environment (the value of `MISSIVE_API_TOKEN`, `Option String`),
  * its declared parameters, and
  * the outcome of the (at most one) outbound HTTP call, supplied as an
    oracle argument (`RemoteOutcome`),
returning `Except PyExc (List HttpRequest × String)`:
  * `.ok (reqs, text)` means the handler returned the plain-text `text`
    after having issued the HTTP requests `reqs` (in order);
  * `.error e` would mean a Python exception escaped the handler
    (the theorems below show this never happens).

Python control flow is translated faithfully:
  * `try/except` blocks become `pyTry` with the predicate of exception
    classes caught by the written `except` clauses; every modelled
    exception class derives from the Python `Exception` class, so a bare
    `except Exception` clause catches all of them.
  * Python truthiness (`if x:`) is modelled per type (`Json.truthy`,
    `optTruthy`, ...): `None`, `False`, `0`, `""`, `[]`, empty dicts are
    falsy.
  * Dynamic attribute/type errors raised while formatting an unexpected
    JSON shape (e.g. `.get` on a non-dict) are modelled as `PyExc.otherExc`.
    Abstractions (documented at each helper): iterating / slicing /
    `len()` on shapes other than the expected one may raise in the model
    where CPython would iterate a `str` or `dict`; either way the
    surrounding `except Exception` clause converts the outcome to text.
-/

/-- JSON values as produced by Python `json.loads`: `null`, booleans,
integer literals (Python `int`), decimal float literals (Python `float`,
modelled exactly as `mantissa·10^exp10`; IEEE rounding is not modelled and
no claim depends on float arithmetic), the Python-extension non-finite
literals (`NaN`, `Infinity`, `-Infinity`), strings, arrays and objects. -/
inductive Json where
  | null
  | bool (b : Bool)
  | int (n : Int)
  | float (mantissa exp10 : Int)
  | nonfinite (lit : String)
  | str (s : String)
  | arr (elems : List Json)
  | obj (fields : List (String × Json))

/-- Exception classes raised in `main.py`; all derive from Python `Exception`:
`ValueError` (raised by `get_api_token`), `json.JSONDecodeError`,
`httpx.HTTPStatusError` (raised by `raise_for_status`, carrying the HTTP
status code), and any other exception (network failures, dynamic type and
attribute errors), carrying its `str()` description. -/
inductive PyExc where
  | valueError (msg : String)
  | jsonDecodeError (msg : String)
  | httpStatusError (status : Nat)
  | otherExc (msg : String)
deriving DecidableEq

/-- Computations that may raise a Python exception. -/
abbrev PyM (α : Type) := Except PyExc α

/-- The environment: the value of the `MISSIVE_API_TOKEN` variable
(`none` when unset, mirroring `os.getenv` returning `None`). -/
abbrev Env := Option String

/-- Outcome of one outbound HTTP call, supplied as an oracle: a 2xx
response whose body parsed as JSON, a `raise_for_status` HTTP error with
its status code, or any other failure (network error, response-decoding
error), carrying its `str()` description. -/
inductive RemoteOutcome where
  | success (body : Json)
  | httpError (status : Nat)
  | failure (msg : String)

/-- HTTP method used by a handler. -/
inductive Method where
  | get
  | post
  | patch
deriving DecidableEq

/-- A query-parameter value: Python passes both strings and ints in the
`params` dict. -/
inductive QVal where
  | s (v : String)
  | i (n : Int)
deriving DecidableEq

/-- One outbound HTTP request, as assembled by a handler: method, URL,
bearer token from the `Authorization` header, query parameters in dict
insertion order, optional JSON body, and whether a JSON `Content-Type`
header is set. -/
structure HttpRequest where
  method : Method
  url : String
  bearer : String
  query : List (String × QVal)
  body : Option Json
  jsonContentType : Bool

/-- Result of running a Python `try` block against the `except` clauses
that lexically follow it: the value of the block, a caught exception, or an
exception not matched by any clause (which propagates). -/
inductive TryResult (α : Type) where
  | ok (a : α)
  | caught (e : PyExc)
  | raised (e : PyExc)

/-- Run a computation under a `try` whose `except` clauses catch exactly
the exceptions satisfying `handles`. -/
def pyTry {α : Type} (b : PyM α) (handles : PyExc → Bool) : TryResult α :=
  match b with
  | .ok a => .ok a
  | .error e => if handles e then .caught e else .raised e

/-- Does the exception match `except ValueError`? -/
def PyExc.isValueError : PyExc → Bool
  | .valueError _ => true
  | _ => false

/-- Does the exception match `except json.JSONDecodeError`? -/
def PyExc.isJSONDecodeError : PyExc → Bool
  | .jsonDecodeError _ => true
  | _ => false

/-- The `str()` description of an exception (abstracted for the classes
whose CPython rendering carries more structure). -/
def PyExc.message : PyExc → String
  | .valueError m => m
  | .jsonDecodeError m => m
  | .httpStatusError code => s!"HTTP status {code}"
  | .otherExc m => m

/-- Python truthiness of a JSON value: `None`, `False`, `0`, `0.0`, `""`,
`[]` and empty dicts are falsy; `NaN` and the infinities are truthy. -/
def Json.truthy : Json → Bool
  | .null => false
  | .bool b => b
  | .int n => n != 0
  | .float m _ => m != 0
  | .nonfinite _ => true
  | .str s => s != ""
  | .arr l => !l.isEmpty
  | .obj l => !l.isEmpty

/-- Python truthiness of an optional string parameter (`if x:`):
`None` and `""` are falsy. -/
def optTruthy : Option String → Bool
  | none => false
  | some s => s != ""

/-- Python truthiness of an optional list parameter: `None` and `[]` are
falsy. -/
def optListTruthy : Option (List String) → Bool
  | none => false
  | some l => !l.isEmpty

/-- Python truthiness of an optional int parameter: `None` and `0` are
falsy. -/
def optIntTruthy : Option Int → Bool
  | none => false
  | some n => n != 0

/-- Python `d.get(key, default)`: on a dict, look the key up (a dict has
unique keys; objects parsed from JSON text with duplicates keep the last
binding, so the last binding is returned); on any other value, raise
`AttributeError`. -/
def Json.getKeyD : Json → String → Json → PyM Json
  | .obj fields, k, dflt =>
      .ok ((((fields.filter (fun p => p.1 == k)).getLast?).map (fun p => p.2)).getD dflt)
  | _, _, _ => .error (.otherExc "AttributeError: get")

/-- Python `d.get(key)` (default `None`). -/
def Json.getKey (j : Json) (k : String) : PyM Json :=
  j.getKeyD k .null

/-- Iterating a JSON value as a Python list. Abstraction: CPython would
also iterate a `str` (by character) or a dict (by key), upon which the
loop bodies in `main.py` raise at the first `.get`; the model raises
`TypeError` at the iteration itself instead. -/
def Json.asList : Json → PyM (List Json)
  | .arr l => .ok l
  | _ => .error (.otherExc "TypeError: not iterable as a JSON array")

/-- Python `len()` of a JSON value (list, string or dict); other types
raise `TypeError`. -/
def Json.pyLenJ : Json → PyM Nat
  | .arr l => .ok l.length
  | .str s => .ok s.data.length
  | .obj l => .ok l.length
  | _ => .error (.otherExc "TypeError: object has no len")

/-- Python `x > 0` on a JSON value: defined for numbers and booleans
(`True > 0` is `True`; `NaN > 0` is `False`); other types raise
`TypeError`. -/
def Json.pyGtZero : Json → PyM Bool
  | .int n => .ok (0 < n)
  | .float m _ => .ok (0 < m)
  | .bool b => .ok b
  | .nonfinite lit => .ok (lit == "Infinity")
  | _ => .error (.otherExc "TypeError: unorderable")

/-- Python string slice `s[:n]` (by code point, like Python). -/
def pyTake (s : String) (n : Nat) : String :=
  String.mk (s.data.take n)

/-- Python `len` of a string (code points). -/
def pyLen (s : String) : Nat :=
  s.data.length

mutual

/-- Python `repr()` of a JSON value, used when a container is rendered
inside an f-string. Abstractions: quote-escaping inside reprs of strings
and the repr of floats are not reproduced exactly (no claim inspects
them). -/
def pyRepr : Json → String
  | .null => "None"
  | .bool true => "True"
  | .bool false => "False"
  | .int n => toString n
  | .float m e => "float(" ++ toString m ++ "e" ++ toString e ++ ")"
  | .nonfinite lit => if lit == "NaN" then "nan" else if lit == "Infinity" then "inf" else "-inf"
  | .str s => "\x27" ++ s ++ "\x27"
  | .arr xs => "[" ++ String.intercalate ", " (pyReprList xs) ++ "]"
  | .obj fs => "\x7b" ++ String.intercalate ", " (pyReprFields fs) ++ "\x7d"

/-- Reprs of the elements of a JSON array. -/
def pyReprList : List Json → List String
  | [] => []
  | j :: js => pyRepr j :: pyReprList js

/-- Reprs of the fields of a JSON object. -/
def pyReprFields : List (String × Json) → List String
  | [] => []
  | (k, v) :: fs => ("\x27" ++ k ++ "\x27: " ++ pyRepr v) :: pyReprFields fs

end

/-- Python `str()` of a JSON value, as applied by f-string interpolation:
strings render as themselves, containers as their repr. -/
def pyStr : Json → String
  | .str s => s
  | j => pyRepr j

/-- Python `", ".join(xs)`: every element must be a `str`, otherwise
`TypeError` is raised. -/
def pyJoinStrs (sep : String) (xs : List Json) : PyM String := do
  let strs ← xs.mapM (fun j =>
    match j with
    | .str s => pure s
    | _ => Except.error (PyExc.otherExc "TypeError: sequence item is not str"))
  pure (String.intercalate sep strs)

/-- Python `str.title()` (ASCII approximation: uppercase the first letter
of every alphabetic run, lowercase the rest; the mailbox names fed to it
are ASCII). -/
def pyTitleAux : List Char → Bool → List Char
  | [], _ => []
  | c :: cs, prevAlpha =>
      (if c.isAlpha then (if prevAlpha then c.toLower else c.toUpper) else c)
        :: pyTitleAux cs c.isAlpha

/-- Python `str.title()` on a string. -/
def pyTitle (s : String) : String :=
  String.mk (pyTitleAux s.data false)

/-- Left-pad a natural number with zeroes to two digits. -/
def pad2 (n : Nat) : String :=
  if n < 10 then "0" ++ toString n else toString n

/-- Left-pad a natural number with zeroes to four digits. -/
def pad4 (n : Nat) : String :=
  if n < 10 then "000" ++ toString n
  else if n < 100 then "00" ++ toString n
  else if n < 1000 then "0" ++ toString n
  else toString n

/-- Civil date from a day count relative to 1970-01-01 (proleptic
Gregorian, the algorithm of Hinnant). -/
def civilFromDays (z0 : Int) : Int × Nat × Nat :=
  let z := z0 + 719468
  let era := z.fdiv 146097
  let doe := (z - era * 146097).toNat
  let yoe := (doe - doe / 1460 + doe / 36524 - doe / 146096) / 365
  let doy := doe - (365 * yoe + yoe / 4 - yoe / 100)
  let mp := (5 * doy + 2) / 153
  let d := doy - (153 * mp + 2) / 5 + 1
  let m := if mp < 10 then mp + 3 else mp - 9
  ((yoe : Int) + era * 400 + (if m ≤ 2 then 1 else 0), m, d)

/-- Render a Unix timestamp as `%Y-%m-%d %H:%M`. Abstraction: rendered in
UTC; the source formats in the process-local timezone, which is outside
the embedding (no claim depends on the rendered date). -/
def renderTs (t : Int) : String :=
  let days := t.fdiv 86400
  let secs := (t - days * 86400).toNat
  let (y, m, d) := civilFromDays days
  let ys := if y < 0 then toString y else pad4 y.toNat
  ys ++ "-" ++ pad2 m ++ "-" ++ pad2 d ++ " " ++ pad2 (secs / 3600) ++ ":" ++ pad2 (secs % 3600 / 60)

/-- Floor of `m·10^e` (seconds represented by a float timestamp). -/
def floatFloorSeconds (m e : Int) : Int :=
  if 0 ≤ e then m * (10 : Int) ^ e.toNat else m.fdiv ((10 : Int) ^ (-e).toNat)

/-- Translation of `format_timestamp` (main.py lines 21-25): falsy
timestamps (including `0`) render as `"Not set"`; numbers (and booleans,
which are ints in Python) are rendered as a date; any other truthy value
makes `datetime.fromtimestamp` raise `TypeError`. Abstraction: the CPython
out-of-range `OSError`/`OverflowError` for extreme timestamps is not
modelled (such a raise would be caught by the same `except Exception`
clause that catches the modelled `TypeError`). -/
def format_timestamp (ts : Json) : PyM String :=
  if ts.truthy then
    match ts with
    | .int n => .ok (renderTs n)
    | .bool _ => .ok (renderTs 1)
    | .float m e => .ok (renderTs (floatFloorSeconds m e))
    | _ => .error (.otherExc "TypeError: fromtimestamp")
  else
    .ok "Not set"

/-- Translation of `get_api_token` (main.py lines 13-18): read
`MISSIVE_API_TOKEN` from the environment; `None` or an empty string is
falsy and raises `ValueError`. -/
def get_api_token (env : Env) : PyM String :=
  match env with
  | none => .error (.valueError "MISSIVE_API_TOKEN not set in environment")
  | some t =>
      if t = "" then .error (.valueError "MISSIVE_API_TOKEN not set in environment")
      else .ok t

/-- Skip JSON whitespace (space, tab, newline, carriage return). -/
def skipWs : List Char → List Char
  | [] => []
  | c :: cs =>
      if c = ' ' ∨ c = '\t' ∨ c = '\n' ∨ c = '\r' then skipWs cs else c :: cs

/-- Value of a hexadecimal digit, if any. -/
def hexDigit (c : Char) : Option Nat :=
  if '0' ≤ c ∧ c ≤ '9' then some (c.toNat - '0'.toNat)
  else if 'a' ≤ c ∧ c ≤ 'f' then some (c.toNat - 'a'.toNat + 10)
  else if 'A' ≤ c ∧ c ≤ 'F' then some (c.toNat - 'A'.toNat + 10)
  else none

/-- Drop an expected literal prefix, returning the remainder on match. -/
def dropLit : List Char → List Char → Option (List Char)
  | [], cs => some cs
  | _ :: _, [] => none
  | l :: ls, c :: cs => if c = l then dropLit ls cs else none

/-- Split off the leading decimal digits. -/
def takeDigits : List Char → List Char × List Char
  | [] => ([], [])
  | c :: cs =>
      if c.isDigit then
        let p := takeDigits cs
        (c :: p.1, p.2)
      else ([], c :: cs)

/-- Natural number denoted by a list of decimal digits. -/
def digitsToNat (ds : List Char) : Nat :=
  ds.foldl (fun acc c => acc * 10 + (c.toNat - '0'.toNat)) 0

/-- Parse the body of a JSON string after its opening quote, following
Python `json.loads`: closing quote ends the string, escapes
`\" \\ \/ \b \f \n \r \t \uXXXX` are decoded, unescaped control
characters are rejected. Abstraction: each `\uXXXX` escape maps to the
single code point `Char.ofNat`, so surrogate pairs are not combined (no
claim depends on non-BMP escapes). -/
def parseStringBody : Nat → List Char → List Char → Except String (String × List Char)
  | 0, _, _ => .error "fuel exhausted"
  | _ + 1, [], _ => .error "Unterminated string"
  | fuel + 1, c :: cs, acc =>
    if c = '"' then .ok (String.mk acc.reverse, cs)
    else if c = '\\' then
      match cs with
      | [] => .error "Unterminated string"
      | e :: cs2 =>
        if e = '"' then parseStringBody fuel cs2 ('"' :: acc)
        else if e = '\\' then parseStringBody fuel cs2 ('\\' :: acc)
        else if e = '/' then parseStringBody fuel cs2 ('/' :: acc)
        else if e = 'b' then parseStringBody fuel cs2 ('\x08' :: acc)
        else if e = 'f' then parseStringBody fuel cs2 ('\x0c' :: acc)
        else if e = 'n' then parseStringBody fuel cs2 ('\n' :: acc)
        else if e = 'r' then parseStringBody fuel cs2 ('\x0d' :: acc)
        else if e = 't' then parseStringBody fuel cs2 ('\t' :: acc)
        else if e = 'u' then
          match cs2 with
          | h1 :: h2 :: h3 :: h4 :: cs3 =>
            match hexDigit h1, hexDigit h2, hexDigit h3, hexDigit h4 with
            | some a, some b, some c3, some d =>
                parseStringBody fuel cs3 (Char.ofNat (((a * 16 + b) * 16 + c3) * 16 + d) :: acc)
            | _, _, _, _ => .error "Invalid unicode escape"
          | _ => .error "Invalid unicode escape"
        else .error "Invalid escape"
    else if c.toNat < 32 then .error "Invalid control character"
    else parseStringBody fuel cs (c :: acc)

/-- Parse a JSON number after an optional leading minus sign, following
the regular expression used by Python `json.loads`:
`(0|[1-9]\d*)(\.\d+)?([eE][-+]?\d+)?`; like the regex, a trailing `.` or
`e` without digits is left unconsumed rather than rejected. Integer
literals become Python ints, anything with a fraction or exponent becomes
a float, modelled exactly as mantissa and decimal exponent. -/
def parseNumberBody (neg : Bool) (cs : List Char) : Except String (Json × List Char) :=
  match cs with
  | [] => .error "Expecting value"
  | c :: rest =>
    if ¬ c.isDigit then .error "Expecting value"
    else
      let ip := if c = '0' then (([c], rest) : List Char × List Char) else takeDigits (c :: rest)
      let intDigits := ip.1
      let afterInt := ip.2
      let fp :=
        match afterInt with
        | '.' :: cs2 =>
          let p := takeDigits cs2
          if p.1.isEmpty then (([], afterInt) : List Char × List Char) else (p.1, p.2)
        | _ => (([], afterInt) : List Char × List Char)
      let fracDigits := fp.1
      let afterFrac := fp.2
      let ep :=
        match afterFrac with
        | e :: cs2 =>
          if e = 'e' ∨ e = 'E' then
            match cs2 with
            | s :: cs3 =>
              if s = '+' ∨ s = '-' then
                let p := takeDigits cs3
                if p.1.isEmpty then ((none, afterFrac) : Option (Bool × List Char) × List Char)
                else ((some (s = '-', p.1), p.2) : Option (Bool × List Char) × List Char)
              else
                let p := takeDigits cs2
                if p.1.isEmpty then ((none, afterFrac) : Option (Bool × List Char) × List Char)
                else ((some (false, p.1), p.2) : Option (Bool × List Char) × List Char)
            | [] => ((none, afterFrac) : Option (Bool × List Char) × List Char)
          else ((none, afterFrac) : Option (Bool × List Char) × List Char)
        | [] => ((none, afterFrac) : Option (Bool × List Char) × List Char)
      let afterNum := ep.2
      let sign : Int := if neg then -1 else 1
      if fracDigits.isEmpty ∧ ep.1.isNone then
        .ok (.int (sign * (digitsToNat intDigits : Int)), afterNum)
      else
        let mantissa : Int := sign * (digitsToNat (intDigits ++ fracDigits) : Int)
        let expVal : Int :=
          match ep.1 with
          | none => 0
          | some (eneg, ds) => (if eneg then -1 else 1) * (digitsToNat ds : Int)
        .ok (.float mantissa (expVal - (fracDigits.length : Int)), afterNum)

mutual

/-- Parse one JSON value, following Python `json.loads` (including its
default acceptance of `NaN`, `Infinity` and `-Infinity`). The fuel
argument strictly exceeds the input length at the top-level call, so it
is never exhausted. -/
def parseValue : Nat → List Char → Except String (Json × List Char)
  | 0, _ => .error "fuel exhausted"
  | _ + 1, [] => .error "Expecting value"
  | fuel + 1, c :: cs =>
    if c = '"' then
      match parseStringBody (fuel + 1) cs [] with
      | .error m => .error m
      | .ok (s, rest) => .ok (.str s, rest)
    else if c = '\x7b' then
      match skipWs cs with
      | '\x7d' :: rest => .ok (.obj [], rest)
      | rest => match parseObjectItems fuel rest with
        | .error m => .error m
        | .ok (fs, rest2) => .ok (.obj fs, rest2)
    else if c = '[' then
      match skipWs cs with
      | ']' :: rest => .ok (.arr [], rest)
      | rest => match parseArrayItems fuel rest with
        | .error m => .error m
        | .ok (js, rest2) => .ok (.arr js, rest2)
    else if c = 't' then
      match dropLit ['r', 'u', 'e'] cs with
      | some rest => .ok (.bool true, rest)
      | none => .error "Expecting value"
    else if c = 'f' then
      match dropLit ['a', 'l', 's', 'e'] cs with
      | some rest => .ok (.bool false, rest)
      | none => .error "Expecting value"
    else if c = 'n' then
      match dropLit ['u', 'l', 'l'] cs with
      | some rest => .ok (.null, rest)
      | none => .error "Expecting value"
    else if c = 'N' then
      match dropLit ['a', 'N'] cs with
      | some rest => .ok (.nonfinite "NaN", rest)
      | none => .error "Expecting value"
    else if c = 'I' then
      match dropLit ['n', 'f', 'i', 'n', 'i', 't', 'y'] cs with
      | some rest => .ok (.nonfinite "Infinity", rest)
      | none => .error "Expecting value"
    else if c = '-' then
      match dropLit ['I', 'n', 'f', 'i', 'n', 'i', 't', 'y'] cs with
      | some rest => .ok (.nonfinite "-Infinity", rest)
      | none => parseNumberBody true cs
    else parseNumberBody false (c :: cs)

/-- Parse the elements of a non-empty JSON array after its opening
bracket (and any leading whitespace). -/
def parseArrayItems : Nat → List Char → Except String (List Json × List Char)
  | 0, _ => .error "fuel exhausted"
  | fuel + 1, cs =>
    match parseValue fuel (skipWs cs) with
    | .error m => .error m
    | .ok (j, rest) =>
      match skipWs rest with
      | ',' :: rest2 =>
        match parseArrayItems fuel rest2 with
        | .error m => .error m
        | .ok (js, rest3) => .ok (j :: js, rest3)
      | ']' :: rest2 => .ok ([j], rest2)
      | _ => .error "Expecting comma delimiter"

/-- Parse the members of a non-empty JSON object after its opening brace
(and any leading whitespace). -/
def parseObjectItems : Nat → List Char → Except String (List (String × Json) × List Char)
  | 0, _ => .error "fuel exhausted"
  | fuel + 1, cs =>
    match cs with
    | '"' :: cs2 =>
      match parseStringBody (fuel + 1) cs2 [] with
      | .error m => .error m
      | .ok (k, rest) =>
        match skipWs rest with
        | ':' :: rest2 =>
          match parseValue fuel (skipWs rest2) with
          | .error m => .error m
          | .ok (v, rest3) =>
            match skipWs rest3 with
            | ',' :: rest4 =>
              match skipWs rest4 with
              | rest5 =>
                match parseObjectItems fuel rest5 with
                | .error m => .error m
                | .ok (fs, rest6) => .ok ((k, v) :: fs, rest6)
            | '\x7d' :: rest4 => .ok ([(k, v)], rest4)
            | _ => .error "Expecting comma delimiter"
        | _ => .error "Expecting colon delimiter"
    | _ => .error "Expecting property name enclosed in double quotes"

end

/-- Translation of `json.loads` on a parameter string: parse one JSON
value with optional surrounding whitespace; anything left over is the
`Extra data` error. Failures raise `json.JSONDecodeError`. -/
def loads (s : String) : PyM Json :=
  match parseValue (s.data.length + 1) (skipWs s.data) with
  | .error m => .error (.jsonDecodeError m)
  | .ok (j, rest) =>
    match skipWs rest with
    | [] => .ok j
    | _ => .error (.jsonDecodeError "Extra data")

/-- Scan for the end of a regex match of `[^<]+?>` after its first
(already checked) character: consume characters until the first `>`
(which closes the match), failing on `<` or end of input. -/
def tagScan : List Char → Option (List Char)
  | [] => none
  | c :: cs => if c = '>' then some cs else if c = '<' then none else tagScan cs

/-- Try to match the regex `[^<]+?>` (the part of `<[^<]+?>` after the
opening `<`) at the start of the input, returning the remainder after the
match: the first character must exist and differ from `<`; the match then
ends at the first subsequent `>`. -/
def findTagEnd : List Char → Option (List Char)
  | [] => none
  | c :: cs => if c = '<' then none else tagScan cs

/-- One pass of the tag-removal substitution (regex `<[^<]+?>`, replaced
by the empty string): at each `<`, non-greedily
match `<[^<]+?>` and drop it; characters outside matches are kept. The
fuel strictly bounds the number of steps (each consumes at least one
character), so `stripTagsFuel cs.length cs` never exhausts it. -/
def stripTagsFuel : Nat → List Char → List Char
  | 0, cs => cs
  | _ + 1, [] => []
  | fuel + 1, c :: rest =>
    if c = '<' then
      match findTagEnd rest with
      | some rem => stripTagsFuel fuel rem
      | none => c :: stripTagsFuel fuel rest
    else c :: stripTagsFuel fuel rest

/-- Translation of the `re.sub` tag removal of main.py line 700 (regex
`<[^<]+?>`, replaced by the empty string). -/
def stripHtmlTags (body : String) : String :=
  String.mk (stripTagsFuel body.data.length body.data)

/-- Translation of the body rendering of `get_message_details`
(main.py lines 696-701): strip HTML tags, truncate to 500 characters and
append `...` exactly when the stripped body is longer than 500. -/
def fmtMessageBody (body : String) : String :=
  let clean_body := stripHtmlTags body
  pyTake clean_body 500 ++ (if 500 < pyLen clean_body then "..." else "")

/-- First binding of a key in an association list (used by the theorems
below to inspect assembled payloads and query dicts, whose keys are
unique). -/
def lookupKey (k : String) (l : List (String × Json)) : Option Json :=
  (l.find? (fun p => p.1 == k)).map (fun p => p.2)

/-- First binding of a key in a query-parameter list. -/
def lookupQ (k : String) (q : List (String × QVal)) : Option QVal :=
  (q.find? (fun p => p.1 == k)).map (fun p => p.2)

/-- Translation of the mailbox if/elif chain of `get_conversations_filtered`
(main.py lines 89-109): the params dict starts as
`{"limit": min(limit, 50)}`, gains the boolean flag for a recognized
mailbox, and an unrecognized mailbox returns `none` (the validation-error
path). -/
def mailboxFlagParams (mailbox : String) (limit : Int) : Option (List (String × QVal)) :=
  if mailbox = "inbox" then some [("limit", .i (min limit 50)), ("inbox", .s "true")]
  else if mailbox = "all" then some [("limit", .i (min limit 50)), ("all", .s "true")]
  else if mailbox = "assigned" then some [("limit", .i (min limit 50)), ("assigned", .s "true")]
  else if mailbox = "closed" then some [("limit", .i (min limit 50)), ("closed", .s "true")]
  else if mailbox = "flagged" then some [("limit", .i (min limit 50)), ("flagged", .s "true")]
  else if mailbox = "trashed" then some [("limit", .i (min limit 50)), ("trashed", .s "true")]
  else if mailbox = "junked" then some [("limit", .i (min limit 50)), ("junked", .s "true")]
  else if mailbox = "snoozed" then some [("limit", .i (min limit 50)), ("snoozed", .s "true")]
  else none

/-- Translation of the team override of `get_conversations_filtered`
(main.py lines 111-117): with a truthy `team_id`, the params dict is
replaced for the inbox/closed/all mailboxes by a team-scoped dict; for
every other mailbox the non-team params are kept unchanged. -/
def conversationsFilteredParams (mailbox : String) (limit : Int)
    (team_id : Option String) : Option (List (String × QVal)) :=
  match mailboxFlagParams mailbox limit with
  | none => none
  | some ps =>
    if optTruthy team_id then
      if mailbox = "inbox" then
        some [("team_inbox", .s (team_id.getD "")), ("limit", .i (min limit 50))]
      else if mailbox = "closed" then
        some [("team_closed", .s (team_id.getD "")), ("limit", .i (min limit 50))]
      else if mailbox = "all" then
        some [("team_all", .s (team_id.getD "")), ("limit", .i (min limit 50))]
      else some ps
    else some ps

/-- Translation of the payload assembly and precondition checks of
`create_task` (main.py lines 441-469): `title` and `description` are
truncated and always present; the optional fields are added only when
truthy (Python `if organization_id:` etc., so an empty string, empty list
or zero timestamp is skipped); a subtask requires a truthy
`conversation_id`, a standalone task a truthy `team_id` or a truthy
`assignee_ids`; `.error` carries the text of the early `return`. -/
def create_task_payload (title description : String)
    (organization_id team_id : Option String)
    (assignee_ids : Option (List String)) (due_date_timestamp : Option Int)
    (conversation_id : Option String) (is_subtask : Bool) :
    Except String (List (String × Json)) :=
  let task_data : List (String × Json) :=
    [("title", .str (pyTake title 1000)),
     ("description", .str (if description != "" then pyTake description 10000 else ""))]
  let task_data :=
    if optTruthy organization_id then
      task_data ++ [("organization", .str (organization_id.getD ""))]
    else task_data
  let task_data :=
    if optTruthy team_id then task_data ++ [("team", .str (team_id.getD ""))]
    else task_data
  let task_data :=
    if optListTruthy assignee_ids then
      task_data ++ [("assignees", .arr ((assignee_ids.getD []).map .str))]
    else task_data
  let task_data :=
    if optIntTruthy due_date_timestamp then
      task_data ++ [("due_at", .int (due_date_timestamp.getD 0))]
    else task_data
  if is_subtask then
    if !optTruthy conversation_id then
      .error "Error: conversation_id is required when creating a subtask"
    else
      .ok (task_data ++ [("conversation", .str (conversation_id.getD "")), ("subtask", .bool true)])
  else
    if !optTruthy team_id && !optListTruthy assignee_ids then
      .error "Error: Either team_id or assignee_ids is required for standalone tasks"
    else .ok task_data

/-- Translation of the payload assembly and validation of `update_task`
(main.py lines 551-575): each field is added exactly when the parameter
`is not None` (so falsy-but-provided values are included); an invalid
`state` and an empty payload return validation errors (in that order, the
`state` check happening as the dict is built). -/
def update_task_data (title description state : Option String)
    (assignee_ids : Option (List String)) (team_id : Option String)
    (due_date_timestamp : Option Int) : Except String (List (String × Json)) :=
  let task_data : List (String × Json) :=
    match title with
    | some t => [("title", .str (pyTake t 1000))]
    | none => []
  let task_data :=
    match description with
    | some d => task_data ++ [("description", .str (pyTake d 10000))]
    | none => task_data
  match state with
  | some s =>
    if s ≠ "todo" ∧ s ≠ "in_progress" ∧ s ≠ "closed" then
      .error "Error: state must be one of: todo, in_progress, closed"
    else
      updateTaskTail (task_data ++ [("state", .str s)]) assignee_ids team_id due_date_timestamp
  | none => updateTaskTail task_data assignee_ids team_id due_date_timestamp
where
  /-- The fields of `update_task` processed after the `state` check
  (main.py lines 565-575), ending in the empty-payload check. -/
  updateTaskTail (task_data : List (String × Json)) (assignee_ids : Option (List String))
      (team_id : Option String) (due_date_timestamp : Option Int) :
      Except String (List (String × Json)) :=
    let task_data :=
      match assignee_ids with
      | some l => task_data ++ [("assignees", .arr (l.map .str))]
      | none => task_data
    let task_data :=
      match team_id with
      | some t => task_data ++ [("team", .str t)]
      | none => task_data
    let task_data :=
      match due_date_timestamp with
      | some n => task_data ++ [("due_at", .int n)]
      | none => task_data
    if task_data.isEmpty then
      .error "Error: At least one field must be provided to update"
    else .ok task_data

/-- Translation of the message payload assembly of `create_custom_message`
(main.py lines 845-857): `account`, `body` and the two parsed JSON fields
are always present; `subject` and `conversation` are added only when
truthy. -/
def custom_message_data (account_id body : String) (from_field to_fields : Json)
    (subject conversation_id : Option String) : List (String × Json) :=
  let message_data : List (String × Json) :=
    [("account", .str account_id), ("body", .str body),
     ("from_field", from_field), ("to_fields", to_fields)]
  let message_data :=
    if optTruthy subject then message_data ++ [("subject", .str (subject.getD ""))]
    else message_data
  if optTruthy conversation_id then
    message_data ++ [("conversation", .str (conversation_id.getD ""))]
  else message_data

/-- Rendering of a contact dict:
the name (default "Unknown") followed by the address (default
"unknown") in angle brackets. -/
def fmtNameAddress (t : Json) : PyM String := do
  let n ← t.getKeyD "name" (.str "Unknown")
  let a ← t.getKeyD "address" (.str "unknown")
  pure (pyStr n ++ " <" ++ pyStr a ++ ">")

/-- Rendering of a preview field:
the first 100 characters with "..." appended exactly when the preview is
longer than 100 characters. Abstraction:
slicing a non-string raises `TypeError` here (CPython would also slice a
list). -/
def fmtPreview100 : Json → PyM String
  | .str s => .ok (pyTake s 100 ++ (if 100 < pyLen s then "..." else ""))
  | _ => .error (.otherExc "TypeError: not subscriptable")

/-- Success formatter of `get_conversations` (main.py lines 48-60). -/
def fmt_recent_conversations (data : Json) : PyM String := do
  let conversations ← data.getKeyD "conversations" (.arr [])
  if !conversations.truthy then
    return "No conversations found in your Missive inbox"
  let convs ← conversations.asList
  let mut result := "📧 Recent Missive Conversations:\n\n"
  for conv in convs.take 5 do
    let subject ← conv.getKeyD "latest_message_subject" (.str "No subject")
    let authorsJ ← conv.getKeyD "authors" (.arr [])
    let authorsL ← authorsJ.asList
    let names ← authorsL.mapM (fun a => a.getKeyD "name" (.str "Unknown"))
    let authors ← pyJoinStrs ", " names
    result := result ++ s!"• {pyStr subject}\n  From: {authors}\n\n"
  return result

/-- Success formatter of `get_conversations_filtered`
(main.py lines 127-148). -/
def fmt_filtered_conversations (mailbox : String) (data : Json) : PyM String := do
  let conversations ← data.getKeyD "conversations" (.arr [])
  if !conversations.truthy then
    return s!"No conversations found in {mailbox} mailbox"
  let convs ← conversations.asList
  let count := convs.length
  let mailboxT := pyTitle mailbox
  let mut result := s!"📧 Conversations from {mailboxT} ({count} found):\n\n"
  for conv in convs do
    let subject ← conv.getKeyD "latest_message_subject" (.str "No subject")
    let authorsJ ← conv.getKeyD "authors" (.arr [])
    let authorsL ← authorsJ.asList
    let names ← authorsL.mapM (fun a => a.getKeyD "name" (.str "Unknown"))
    let authors ← pyJoinStrs ", " names
    let assignees ← conv.getKeyD "assignee_names" (.str "Unassigned")
    let tasks_count ← conv.getKeyD "tasks_count" (.int 0)
    let subjectS := pyStr subject
    result := result ++ s!"• {subjectS}\n"
    result := result ++ s!"  From: {authors}\n"
    if assignees.truthy then
      let aS := pyStr assignees
      result := result ++ s!"  Assigned: {aS}\n"
    let gt ← tasks_count.pyGtZero
    if gt then
      let tcS := pyStr tasks_count
      result := result ++ s!"  Tasks: {tcS}\n"
    let idv ← conv.getKey "id"
    let idS := pyStr idv
    result := result ++ s!"  ID: {idS}\n\n"
  return result

/-- Success formatter of `get_conversation_details`
(main.py lines 178-245). -/
def fmt_conversation_details (conversation_id : String) (data : Json) : PyM String := do
  let conversations ← data.getKeyD "conversations" (.arr [])
  if !conversations.truthy then
    return s!"Conversation {conversation_id} not found"
  let convs ← conversations.asList
  let conv := convs.headD .null
  let mut result := "📧 Conversation Details:\n\n"
  let subject ← conv.getKeyD "latest_message_subject" (.str "No subject")
  let subjectS := pyStr subject
  result := result ++ s!"Subject: {subjectS}\n"
  let idv ← conv.getKey "id"
  let idS := pyStr idv
  result := result ++ s!"ID: {idS}\n"
  let authorsJ ← conv.getKeyD "authors" (.arr [])
  if authorsJ.truthy then
    let authorsL ← authorsJ.asList
    let names ← authorsL.mapM (fun a => a.getKeyD "name" (.str "Unknown"))
    let authors ← pyJoinStrs ", " names
    result := result ++ s!"Authors: {authors}\n"
  let assignees ← conv.getKeyD "assignee_names" (.str "")
  if assignees.truthy then
    let aS := pyStr assignees
    result := result ++ s!"Assigned to: {aS}\n"
  let team ← conv.getKey "team"
  if team.truthy then
    let tname ← team.getKey "name"
    let tS := pyStr tname
    result := result ++ s!"Team: {tS}\n"
  let org ← conv.getKey "organization"
  if org.truthy then
    let oname ← org.getKey "name"
    let oS := pyStr oname
    result := result ++ s!"Organization: {oS}\n"
  let mc ← conv.getKeyD "messages_count" (.int 0)
  let mcS := pyStr mc
  result := result ++ s!"Messages: {mcS}\n"
  let tc ← conv.getKeyD "tasks_count" (.int 0)
  let ctc ← conv.getKeyD "completed_tasks_count" (.int 0)
  let tcS := pyStr tc
  let ctcS := pyStr ctc
  result := result ++ s!"Tasks: {tcS} ({ctcS} completed)\n"
  let ac ← conv.getKeyD "attachments_count" (.int 0)
  let acS := pyStr ac
  result := result ++ s!"Attachments: {acS}\n"
  let dc ← conv.getKeyD "drafts_count" (.int 0)
  let dcS := pyStr dc
  result := result ++ s!"Drafts: {dcS}\n"
  let users ← conv.getKeyD "users" (.arr [])
  if users.truthy then
    let usersL ← users.asList
    let user := usersL.headD .null
    let mut status : List String := []
    let f1 ← user.getKey "assigned"
    if f1.truthy then status := status ++ ["assigned"]
    let f2 ← user.getKey "closed"
    if f2.truthy then status := status ++ ["closed"]
    let f3 ← user.getKey "archived"
    if f3.truthy then status := status ++ ["archived"]
    let f4 ← user.getKey "flagged"
    if f4.truthy then status := status ++ ["flagged"]
    let f5 ← user.getKey "snoozed"
    if f5.truthy then status := status ++ ["snoozed"]
    let f6 ← user.getKey "trashed"
    if f6.truthy then status := status ++ ["trashed"]
    let f7 ← user.getKey "junked"
    if f7.truthy then status := status ++ ["junked"]
    if !status.isEmpty then
      let statusS := String.intercalate ", " status
      result := result ++ s!"Status: {statusS}\n"
  let shared_labels ← conv.getKeyD "shared_label_names" (.str "")
  if shared_labels.truthy then
    let slS := pyStr shared_labels
    result := result ++ s!"Labels: {slS}\n"
  let last_activity ← conv.getKey "last_activity_at"
  if last_activity.truthy then
    let tsf ← format_timestamp last_activity
    result := result ++ s!"Last activity: {tsf}\n"
  let web_url ← conv.getKeyD "web_url" (.str "N/A")
  let wS := pyStr web_url
  result := result ++ s!"\nWeb URL: {wS}\n"
  return result

/-- Success formatter of `get_conversation_messages`
(main.py lines 279-318). -/
def fmt_conversation_messages (conversation_id : String) (data : Json) : PyM String := do
  let messages ← data.getKeyD "messages" (.arr [])
  if !messages.truthy then
    return s!"No messages found in conversation {conversation_id}"
  let msgs ← messages.asList
  let count := msgs.length
  let mut result := s!"💬 Messages in Conversation ({count} found):\n\n"
  for p in msgs.enum do
    let i := p.1 + 1
    let msg := p.2
    let subject ← msg.getKeyD "subject" (.str "No subject")
    let subjectS := pyStr subject
    result := result ++ s!"{i}. {subjectS}\n"
    let from_field ← msg.getKeyD "from_field" (.obj [])
    if from_field.truthy then
      let fa ← fmtNameAddress from_field
      result := result ++ s!"   From: {fa}\n"
    let to_fields ← msg.getKeyD "to_fields" (.arr [])
    if to_fields.truthy then
      let toL ← to_fields.asList
      let tos ← toL.mapM fmtNameAddress
      let toS := String.intercalate ", " tos
      result := result ++ s!"   To: {toS}\n"
    let preview ← msg.getKeyD "preview" (.str "")
    if preview.truthy then
      let pv ← fmtPreview100 preview
      result := result ++ s!"   Preview: {pv}\n"
    let delivered_at ← msg.getKey "delivered_at"
    if delivered_at.truthy then
      let d ← format_timestamp delivered_at
      result := result ++ s!"   Delivered: {d}\n"
    let attachments ← msg.getKeyD "attachments" (.arr [])
    if attachments.truthy then
      let n ← attachments.pyLenJ
      result := result ++ s!"   Attachments: {n} file(s)\n"
    let idv ← msg.getKey "id"
    let idS := pyStr idv
    result := result ++ s!"   Message ID: {idS}\n\n"
  return result

/-- Success formatter of `get_conversation_comments`
(main.py lines 352-395). -/
def fmt_conversation_comments (conversation_id : String) (data : Json) : PyM String := do
  let comments ← data.getKeyD "comments" (.arr [])
  if !comments.truthy then
    return s!"No comments found in conversation {conversation_id}"
  let cmts ← comments.asList
  let count := cmts.length
  let mut result := s!"💭 Comments in Conversation ({count} found):\n\n"
  for p in cmts.enum do
    let i := p.1 + 1
    let comment := p.2
    let bodyv ← comment.getKeyD "body" (.str "No content")
    let bodyS := pyStr bodyv
    result := result ++ s!"{i}. {bodyS}\n"
    let author ← comment.getKeyD "author" (.obj [])
    if author.truthy then
      let n ← author.getKeyD "name" (.str "Unknown")
      let e ← author.getKeyD "email" (.str "unknown")
      let nS := pyStr n
      let eS := pyStr e
      result := result ++ s!"   By: {nS} <{eS}>\n"
    let created_at ← comment.getKey "created_at"
    if created_at.truthy then
      let d ← format_timestamp created_at
      result := result ++ s!"   Created: {d}\n"
    let task ← comment.getKey "task"
    if task.truthy then
      let desc ← task.getKeyD "description" (.str "No description")
      let descS := pyStr desc
      result := result ++ s!"   Task: {descS}\n"
      let st ← task.getKeyD "state" (.str "unknown")
      let stS := pyStr st
      result := result ++ s!"   Task State: {stS}\n"
      let due_at ← task.getKey "due_at"
      if due_at.truthy then
        let d ← format_timestamp due_at
        result := result ++ s!"   Due: {d}\n"
      let assignees ← task.getKeyD "assignees" (.arr [])
      if assignees.truthy then
        let asL ← assignees.asList
        let assignee_names ← asL.mapM (fun a => a.getKeyD "name" (.str "Unknown"))
        let joined ← pyJoinStrs ", " assignee_names
        result := result ++ s!"   Assigned to: {joined}\n"
    let attachment ← comment.getKey "attachment"
    if attachment.truthy then
      let fn ← attachment.getKeyD "filename" (.str "Unknown file")
      let fnS := pyStr fn
      result := result ++ s!"   Attachment: {fnS}\n"
    let idv ← comment.getKey "id"
    let idS := pyStr idv
    result := result ++ s!"   Comment ID: {idS}\n\n"
  return result

/-- Success formatter of `create_task` (main.py lines 482-512). -/
def fmt_task_created (data : Json) : PyM String := do
  let task ← data.getKeyD "tasks" (.obj [])
  let mut result := "✅ Task Created Successfully!\n\n"
  let t ← task.getKeyD "title" (.str "Unknown")
  let tS := pyStr t
  result := result ++ s!"Title: {tS}\n"
  let d ← task.getKeyD "description" (.str "No description")
  let dS := pyStr d
  result := result ++ s!"Description: {dS}\n"
  let st ← task.getKeyD "state" (.str "unknown")
  let stS := pyStr st
  result := result ++ s!"State: {stS}\n"
  let idv ← task.getKey "id"
  let idS := pyStr idv
  result := result ++ s!"Task ID: {idS}\n"
  let due_at ← task.getKey "due_at"
  if due_at.truthy then
    let ds ← format_timestamp due_at
    result := result ++ s!"Due: {ds}\n"
  let assignees ← task.getKeyD "assignees" (.arr [])
  if assignees.truthy then
    let asL ← assignees.asList
    let joined ← pyJoinStrs ", " asL
    result := result ++ s!"Assignees: {joined}\n"
  let team ← task.getKey "team"
  if team.truthy then
    let teamS := pyStr team
    result := result ++ s!"Team: {teamS}\n"
  let conversation ← task.getKey "conversation"
  if conversation.truthy then
    let convS := pyStr conversation
    result := result ++ s!"Conversation: {convS}\n"
  return result

/-- Success formatter of `update_task` (main.py lines 590-615). -/
def fmt_task_updated (data : Json) : PyM String := do
  let task ← data.getKeyD "tasks" (.obj [])
  let mut result := "✅ Task Updated Successfully!\n\n"
  let t ← task.getKeyD "title" (.str "Unknown")
  let tS := pyStr t
  result := result ++ s!"Title: {tS}\n"
  let d ← task.getKeyD "description" (.str "No description")
  let dS := pyStr d
  result := result ++ s!"Description: {dS}\n"
  let st ← task.getKeyD "state" (.str "unknown")
  let stS := pyStr st
  result := result ++ s!"State: {stS}\n"
  let idv ← task.getKey "id"
  let idS := pyStr idv
  result := result ++ s!"Task ID: {idS}\n"
  let due_at ← task.getKey "due_at"
  if due_at.truthy then
    let ds ← format_timestamp due_at
    result := result ++ s!"Due: {ds}\n"
  let assignees ← task.getKeyD "assignees" (.arr [])
  if assignees.truthy then
    let asL ← assignees.asList
    let joined ← pyJoinStrs ", " asL
    result := result ++ s!"Assignees: {joined}\n"
  let team ← task.getKey "team"
  if team.truthy then
    let teamS := pyStr team
    result := result ++ s!"Team: {teamS}\n"
  return result

/-- Success formatter of `get_message_details` (main.py lines 653-729). -/
def fmt_message_details (message_id : String) (data : Json) : PyM String := do
  let message ← data.getKeyD "messages" (.obj [])
  if !message.truthy then
    return s!"Message {message_id} not found"
  let mut result := "📨 Message Details:\n\n"
  let subject ← message.getKeyD "subject" (.str "No subject")
  let subjectS := pyStr subject
  result := result ++ s!"Subject: {subjectS}\n"
  let ty ← message.getKeyD "type" (.str "unknown")
  let tyS := pyStr ty
  result := result ++ s!"Type: {tyS}\n"
  let idv ← message.getKey "id"
  let idS := pyStr idv
  result := result ++ s!"Message ID: {idS}\n"
  let from_field ← message.getKeyD "from_field" (.obj [])
  if from_field.truthy then
    let fa ← fmtNameAddress from_field
    result := result ++ s!"From: {fa}\n"
  let to_fields ← message.getKeyD "to_fields" (.arr [])
  if to_fields.truthy then
    let toL ← to_fields.asList
    let tos ← toL.mapM fmtNameAddress
    let toS := String.intercalate ", " tos
    result := result ++ s!"To: {toS}\n"
  let cc_fields ← message.getKeyD "cc_fields" (.arr [])
  if cc_fields.truthy then
    let ccL ← cc_fields.asList
    let ccs ← ccL.mapM fmtNameAddress
    let ccS := String.intercalate ", " ccs
    result := result ++ s!"CC: {ccS}\n"
  let delivered_at ← message.getKey "delivered_at"
  if delivered_at.truthy then
    let d ← format_timestamp delivered_at
    result := result ++ s!"Delivered: {d}\n"
  let created_at ← message.getKey "created_at"
  if created_at.truthy then
    let d ← format_timestamp created_at
    result := result ++ s!"Created: {d}\n"
  let preview ← message.getKeyD "preview" (.str "")
  if preview.truthy then
    let pS := pyStr preview
    result := result ++ s!"Preview: {pS}\n"
  let bodyv ← message.getKeyD "body" (.str "")
  if bodyv.truthy then
    match bodyv with
    | .str bs =>
      let bodyS := fmtMessageBody bs
      result := result ++ s!"Body: {bodyS}\n"
    | _ => throw (.otherExc "TypeError: expected string or bytes-like object")
  let attachments ← message.getKeyD "attachments" (.arr [])
  if attachments.truthy then
    let n ← attachments.pyLenJ
    result := result ++ s!"\nAttachments ({n}):\n"
    let attL ← attachments.asList
    for att in attL do
      let fn ← att.getKeyD "filename" (.str "Unknown")
      let sz ← att.getKeyD "size" (.int 0)
      let fnS := pyStr fn
      let szS := pyStr sz
      result := result ++ s!"  • {fnS} ({szS} bytes)\n"
      let mt ← att.getKeyD "media_type" (.str "unknown")
      let sty ← att.getKeyD "sub_type" (.str "unknown")
      let mtS := pyStr mt
      let styS := pyStr sty
      result := result ++ s!"    Type: {mtS}/{styS}\n"
      let w ← att.getKey "width"
      let h ← att.getKey "height"
      if w.truthy && h.truthy then
        let wS := pyStr w
        let hS := pyStr h
        result := result ++ s!"    Dimensions: {wS}x{hS}\n"
  let conversation ← message.getKeyD "conversation" (.obj [])
  if conversation.truthy then
    let cs ← conversation.getKeyD "latest_message_subject" (.str "No subject")
    let csS := pyStr cs
    result := result ++ s!"\nConversation: {csS}\n"
    let cid ← conversation.getKey "id"
    let cidS := pyStr cid
    result := result ++ s!"Conversation ID: {cidS}\n"
    let team ← conversation.getKeyD "team" (.obj [])
    if team.truthy then
      let tn ← team.getKey "name"
      let tnS := pyStr tn
      result := result ++ s!"Team: {tnS}\n"
    let org ← conversation.getKeyD "organization" (.obj [])
    if org.truthy then
      let ogn ← org.getKey "name"
      let ognS := pyStr ogn
      result := result ++ s!"Organization: {ognS}\n"
  return result

/-- Success formatter of `search_messages_by_email_id`
(main.py lines 762-800). -/
def fmt_search_messages (email_message_id : String) (data : Json) : PyM String := do
  let messages ← data.getKeyD "messages" (.arr [])
  if !messages.truthy then
    return s!"No messages found with email Message-ID: {email_message_id}"
  let msgs ← messages.asList
  let count := msgs.length
  let mut result := s!"📧 Messages found for Message-ID \x27{email_message_id}\x27 ({count} found):\n\n"
  for p in msgs.enum do
    let i := p.1 + 1
    let message := p.2
    let subject ← message.getKeyD "subject" (.str "No subject")
    let subjectS := pyStr subject
    result := result ++ s!"{i}. {subjectS}\n"
    let from_field ← message.getKeyD "from_field" (.obj [])
    if from_field.truthy then
      let fa ← fmtNameAddress from_field
      result := result ++ s!"   From: {fa}\n"
    let to_fields ← message.getKeyD "to_fields" (.arr [])
    if to_fields.truthy then
      let toL ← to_fields.asList
      let tos ← toL.mapM fmtNameAddress
      let toS := String.intercalate ", " tos
      result := result ++ s!"   To: {toS}\n"
    let preview ← message.getKeyD "preview" (.str "")
    if preview.truthy then
      let pv ← fmtPreview100 preview
      result := result ++ s!"   Preview: {pv}\n"
    let delivered_at ← message.getKey "delivered_at"
    if delivered_at.truthy then
      let d ← format_timestamp delivered_at
      result := result ++ s!"   Delivered: {d}\n"
    let msg_type ← message.getKeyD "type" (.str "unknown")
    let mtS := pyStr msg_type
    result := result ++ s!"   Type: {mtS}\n"
    let idv ← message.getKey "id"
    let idS := pyStr idv
    result := result ++ s!"   Message ID: {idS}\n\n"
  return result

/-- Success formatter of `create_custom_message` (main.py lines 871-896). -/
def fmt_message_created (data : Json) : PyM String := do
  let message ← data.getKeyD "messages" (.obj [])
  let mut result := "📨 Message Created Successfully!\n\n"
  let subject ← message.getKeyD "subject" (.str "No subject")
  let subjectS := pyStr subject
  result := result ++ s!"Subject: {subjectS}\n"
  let ty ← message.getKeyD "type" (.str "unknown")
  let tyS := pyStr ty
  result := result ++ s!"Type: {tyS}\n"
  let idv ← message.getKey "id"
  let idS := pyStr idv
  result := result ++ s!"Message ID: {idS}\n"
  let from_field ← message.getKeyD "from_field" (.obj [])
  if from_field.truthy then
    let fa ← fmtNameAddress from_field
    result := result ++ s!"From: {fa}\n"
  let to_fields ← message.getKeyD "to_fields" (.arr [])
  if to_fields.truthy then
    let toL ← to_fields.asList
    let tos ← toL.mapM fmtNameAddress
    let toS := String.intercalate ", " tos
    result := result ++ s!"To: {toS}\n"
  let delivered_at ← message.getKey "delivered_at"
  if delivered_at.truthy then
    let d ← format_timestamp delivered_at
    result := result ++ s!"Delivered: {d}\n"
  return result

/-- Is the mailbox one of the eight values recognized by the if/elif
chain of `get_conversations_filtered`? -/
def isValidMailbox (mailbox : String) : Bool :=
  mailbox == "inbox" || mailbox == "all" || mailbox == "assigned" || mailbox == "closed" ||
    mailbox == "flagged" || mailbox == "trashed" || mailbox == "junked" || mailbox == "snoozed"

/-- The text every handler returns when `get_api_token` raises:
`f"Error: {str(e)}"` applied to the `ValueError`. -/
def missingTokenText : String :=
  "Error: MISSIVE_API_TOKEN not set in environment"

/-- The parse step of `create_custom_message` (main.py lines 838-840):
`json.loads` of the two serialized-JSON parameters, in order. -/
def parseFromTo (from_field_data to_fields_data : String) : PyM (Json × Json) := do
  let f ← loads from_field_data
  let t ← loads to_fields_data
  pure (f, t)

/-- Run the body of the big `try` block of a handler against its `except`
clauses (`except httpx.HTTPStatusError` first, then `except Exception`,
which catches every modelled exception class): on a successful response
run the formatter (whose own exceptions are caught by the same clauses);
an HTTP error status goes through `onStatus`; any other exception through
`onExc`. The result is always a string — this is where the exhaustive
`except Exception` clause of every handler is encoded. -/
def runTry (outcome : RemoteOutcome) (onSuccess : Json → PyM String)
    (onStatus : Nat → String) (onExc : PyExc → String) : String :=
  match outcome with
  | .success body =>
    match onSuccess body with
    | .ok s => s
    | .error (.httpStatusError code) => onStatus code
    | .error e => onExc e
  | .httpError code => onStatus code
  | .failure msg => onExc (.otherExc msg)

/-- The fixed 401 text shared verbatim by every handler in main.py. -/
def unauthorizedText : String :=
  "Error: Invalid Missive API token. Please check your token in Claude Desktop config."

/-- Translation of the tool handler `get_conversations`
(main.py lines 31-68). -/
def get_conversations (env : Env) (outcome : RemoteOutcome) :
    PyM (List HttpRequest × String) :=
  match pyTry (get_api_token env) PyExc.isValueError with
  | .caught e => .ok ([], "Error: " ++ e.message)
  | .raised e => .error e
  | .ok api_token =>
    let req : HttpRequest :=
      { method := .get
        url := "https://public.missiveapp.com/v1/conversations"
        bearer := api_token
        query := [("inbox", .s "true"), ("limit", .i 10)]
        body := none
        jsonContentType := false }
    .ok ([req], runTry outcome fmt_recent_conversations
      (fun code =>
        if code = 401 then unauthorizedText
        else s!"Error fetching conversations: HTTP {code}")
      (fun e => "Error fetching conversations: " ++ e.message))

/-- Translation of the tool handler `get_conversations_filtered`
(main.py lines 70-156). -/
def get_conversations_filtered (env : Env) (mailbox : String) (limit : Int)
    (team_id : Option String) (outcome : RemoteOutcome) :
    PyM (List HttpRequest × String) :=
  match pyTry (get_api_token env) PyExc.isValueError with
  | .caught e => .ok ([], "Error: " ++ e.message)
  | .raised e => .error e
  | .ok api_token =>
    match conversationsFilteredParams mailbox limit team_id with
    | none =>
      .ok ([], s!"Error: Invalid mailbox \x27{mailbox}\x27. Valid options: inbox, all, assigned, closed, flagged, trashed, junked, snoozed")
    | some ps =>
      let req : HttpRequest :=
        { method := .get
          url := "https://public.missiveapp.com/v1/conversations"
          bearer := api_token
          query := ps
          body := none
          jsonContentType := false }
      .ok ([req], runTry outcome (fmt_filtered_conversations mailbox)
        (fun code =>
          if code = 401 then unauthorizedText
          else s!"Error fetching conversations: HTTP {code}")
        (fun e => "Error fetching conversations: " ++ e.message))

/-- Translation of the tool handler `get_conversation_details`
(main.py lines 158-255). -/
def get_conversation_details (env : Env) (conversation_id : String)
    (outcome : RemoteOutcome) : PyM (List HttpRequest × String) :=
  match pyTry (get_api_token env) PyExc.isValueError with
  | .caught e => .ok ([], "Error: " ++ e.message)
  | .raised e => .error e
  | .ok api_token =>
    let req : HttpRequest :=
      { method := .get
        url := "https://public.missiveapp.com/v1/conversations/" ++ conversation_id
        bearer := api_token
        query := []
        body := none
        jsonContentType := false }
    .ok ([req], runTry outcome (fmt_conversation_details conversation_id)
      (fun code =>
        if code = 401 then unauthorizedText
        else if code = 404 then s!"Error: Conversation {conversation_id} not found"
        else s!"Error fetching conversation: HTTP {code}")
      (fun e => "Error fetching conversation: " ++ e.message))

/-- Translation of the tool handler `get_conversation_messages`
(main.py lines 257-328). -/
def get_conversation_messages (env : Env) (conversation_id : String) (limit : Int)
    (outcome : RemoteOutcome) : PyM (List HttpRequest × String) :=
  match pyTry (get_api_token env) PyExc.isValueError with
  | .caught e => .ok ([], "Error: " ++ e.message)
  | .raised e => .error e
  | .ok api_token =>
    let req : HttpRequest :=
      { method := .get
        url := "https://public.missiveapp.com/v1/conversations/" ++ conversation_id ++ "/messages"
        bearer := api_token
        query := [("limit", .i (min limit 10))]
        body := none
        jsonContentType := false }
    .ok ([req], runTry outcome (fmt_conversation_messages conversation_id)
      (fun code =>
        if code = 401 then unauthorizedText
        else if code = 404 then s!"Error: Conversation {conversation_id} not found"
        else s!"Error fetching messages: HTTP {code}")
      (fun e => "Error fetching messages: " ++ e.message))

/-- Translation of the tool handler `get_conversation_comments`
(main.py lines 330-405). -/
def get_conversation_comments (env : Env) (conversation_id : String) (limit : Int)
    (outcome : RemoteOutcome) : PyM (List HttpRequest × String) :=
  match pyTry (get_api_token env) PyExc.isValueError with
  | .caught e => .ok ([], "Error: " ++ e.message)
  | .raised e => .error e
  | .ok api_token =>
    let req : HttpRequest :=
      { method := .get
        url := "https://public.missiveapp.com/v1/conversations/" ++ conversation_id ++ "/comments"
        bearer := api_token
        query := [("limit", .i (min limit 10))]
        body := none
        jsonContentType := false }
    .ok ([req], runTry outcome (fmt_conversation_comments conversation_id)
      (fun code =>
        if code = 401 then unauthorizedText
        else if code = 404 then s!"Error: Conversation {conversation_id} not found"
        else s!"Error fetching comments: HTTP {code}")
      (fun e => "Error fetching comments: " ++ e.message))

/-- Translation of the tool handler `create_task`
(main.py lines 411-522). -/
def create_task (env : Env) (title description : String)
    (organization_id team_id : Option String)
    (assignee_ids : Option (List String)) (due_date_timestamp : Option Int)
    (conversation_id : Option String) (is_subtask : Bool)
    (outcome : RemoteOutcome) : PyM (List HttpRequest × String) :=
  match pyTry (get_api_token env) PyExc.isValueError with
  | .caught e => .ok ([], "Error: " ++ e.message)
  | .raised e => .error e
  | .ok api_token =>
    match create_task_payload title description organization_id team_id
        assignee_ids due_date_timestamp conversation_id is_subtask with
    | .error t => .ok ([], t)
    | .ok task_data =>
      let req : HttpRequest :=
        { method := .post
          url := "https://public.missiveapp.com/v1/tasks"
          bearer := api_token
          query := []
          body := some (.obj [("tasks", .obj task_data)])
          jsonContentType := true }
      .ok ([req], runTry outcome fmt_task_created
        (fun code =>
          if code = 401 then unauthorizedText
          else if code = 400 then "Error: Invalid task data. Please check your parameters."
          else s!"Error creating task: HTTP {code}")
        (fun e => "Error creating task: " ++ e.message))

/-- Translation of the tool handler `update_task`
(main.py lines 524-627). -/
def update_task (env : Env) (task_id : String)
    (title description state : Option String)
    (assignee_ids : Option (List String)) (team_id : Option String)
    (due_date_timestamp : Option Int) (outcome : RemoteOutcome) :
    PyM (List HttpRequest × String) :=
  match pyTry (get_api_token env) PyExc.isValueError with
  | .caught e => .ok ([], "Error: " ++ e.message)
  | .raised e => .error e
  | .ok api_token =>
    match update_task_data title description state assignee_ids team_id due_date_timestamp with
    | .error t => .ok ([], t)
    | .ok task_data =>
      let req : HttpRequest :=
        { method := .patch
          url := "https://public.missiveapp.com/v1/tasks/" ++ task_id
          bearer := api_token
          query := []
          body := some (.obj [("tasks", .obj task_data)])
          jsonContentType := true }
      .ok ([req], runTry outcome fmt_task_updated
        (fun code =>
          if code = 401 then unauthorizedText
          else if code = 404 then s!"Error: Task {task_id} not found"
          else if code = 400 then "Error: Invalid task data. Please check your parameters."
          else s!"Error updating task: HTTP {code}")
        (fun e => "Error updating task: " ++ e.message))

/-- Translation of the tool handler `get_message_details`
(main.py lines 633-739). -/
def get_message_details (env : Env) (message_id : String)
    (outcome : RemoteOutcome) : PyM (List HttpRequest × String) :=
  match pyTry (get_api_token env) PyExc.isValueError with
  | .caught e => .ok ([], "Error: " ++ e.message)
  | .raised e => .error e
  | .ok api_token =>
    let req : HttpRequest :=
      { method := .get
        url := "https://public.missiveapp.com/v1/messages/" ++ message_id
        bearer := api_token
        query := []
        body := none
        jsonContentType := false }
    .ok ([req], runTry outcome (fmt_message_details message_id)
      (fun code =>
        if code = 401 then unauthorizedText
        else if code = 404 then s!"Error: Message {message_id} not found"
        else s!"Error fetching message: HTTP {code}")
      (fun e => "Error fetching message: " ++ e.message))

/-- Translation of the tool handler `search_messages_by_email_id`
(main.py lines 741-810). -/
def search_messages_by_email_id (env : Env) (email_message_id : String)
    (outcome : RemoteOutcome) : PyM (List HttpRequest × String) :=
  match pyTry (get_api_token env) PyExc.isValueError with
  | .caught e => .ok ([], "Error: " ++ e.message)
  | .raised e => .error e
  | .ok api_token =>
    let req : HttpRequest :=
      { method := .get
        url := "https://public.missiveapp.com/v1/messages"
        bearer := api_token
        query := [("email_message_id", .s email_message_id)]
        body := none
        jsonContentType := false }
    .ok ([req], runTry outcome (fmt_search_messages email_message_id)
      (fun code =>
        if code = 401 then unauthorizedText
        else if code = 404 then s!"Error: No messages found with Message-ID: {email_message_id}"
        else s!"Error searching messages: HTTP {code}")
      (fun e => "Error searching messages: " ++ e.message))

/-- Translation of the tool handler `create_custom_message`
(main.py lines 812-906): token first, then the `json.loads` of the two
serialized-JSON parameters under a `try/except json.JSONDecodeError`,
then the request. -/
def create_custom_message (env : Env)
    (account_id body from_field_data to_fields_data : String)
    (subject conversation_id : Option String) (outcome : RemoteOutcome) :
    PyM (List HttpRequest × String) :=
  match pyTry (get_api_token env) PyExc.isValueError with
  | .caught e => .ok ([], "Error: " ++ e.message)
  | .raised e => .error e
  | .ok api_token =>
    match pyTry (parseFromTo from_field_data to_fields_data) PyExc.isJSONDecodeError with
    | .caught e =>
      .ok ([], "Error: Invalid JSON format in from_field_data or to_fields_data: " ++ e.message)
    | .raised e => .error e
    | .ok ft =>
      let message_data := custom_message_data account_id body ft.1 ft.2 subject conversation_id
      let req : HttpRequest :=
        { method := .post
          url := "https://public.missiveapp.com/v1/messages"
          bearer := api_token
          query := []
          body := some (.obj [("messages", .obj message_data)])
          jsonContentType := true }
      .ok ([req], runTry outcome fmt_message_created
        (fun code =>
          if code = 401 then unauthorizedText
          else if code = 400 then "Error: Invalid message data. Please check your parameters."
          else s!"Error creating message: HTTP {code}")
        (fun e => "Error creating message: " ++ e.message))

/-! Helper lemmas about the token and parse steps. -/

/-- The token step of every handler: with the variable unset or empty the
`except ValueError` clause catches the raise; otherwise the token is
returned. -/
theorem pyTry_get_api_token (env : Env) :
    pyTry (get_api_token env) PyExc.isValueError
        = .caught (.valueError "MISSIVE_API_TOKEN not set in environment")
      ∨ ∃ t : String, pyTry (get_api_token env) PyExc.isValueError = .ok t := by
  match env with
  | none => exact .inl rfl
  | some t =>
    by_cases h : t = ""
    · subst h; exact .inl rfl
    · exact .inr ⟨t, by simp [pyTry, get_api_token, h]⟩

/-- With a non-empty token in the environment, the token step succeeds. -/
theorem pyTry_token_ok (tok : String) (h : tok ≠ "") :
    pyTry (get_api_token (some tok)) PyExc.isValueError = .ok tok := by
  simp [pyTry, get_api_token, h]

/-- All failures of `loads` are `json.JSONDecodeError`s. -/
theorem loads_error_mode (s : String) (e : PyExc) (h : loads s = .error e) :
    PyExc.isJSONDecodeError e = true := by
  unfold loads at h
  split at h
  · injection h with h2; subst h2; rfl
  · split at h
    · exact absurd h (by simp)
    · injection h with h2; subst h2; rfl

/-- All failures of the parse step of `create_custom_message` are
`json.JSONDecodeError`s. -/
theorem parseFromTo_error_mode (s₁ s₂ : String) (e : PyExc)
    (h : parseFromTo s₁ s₂ = .error e) : PyExc.isJSONDecodeError e = true := by
  unfold parseFromTo at h
  cases h1 : loads s₁ with
  | error e1 =>
    rw [h1] at h
    have h' : (Except.error e1 : PyM (Json × Json)) = Except.error e := h
    injection h' with h2
    subst h2
    exact loads_error_mode s₁ e1 h1
  | ok f =>
    rw [h1] at h
    cases h2 : loads s₂ with
    | error e2 =>
      rw [h2] at h
      have h' : (Except.error e2 : PyM (Json × Json)) = Except.error e := h
      injection h' with h3
      subst h3
      exact loads_error_mode s₂ e2 h2
    | ok t =>
      rw [h2] at h
      exact Except.noConfusion h

/-- The parse step never escapes its `except json.JSONDecodeError`
clause. -/
theorem parseFromTo_not_raised (s₁ s₂ : String) (e : PyExc) :
    pyTry (parseFromTo s₁ s₂) PyExc.isJSONDecodeError ≠ .raised e := by
  unfold pyTry
  cases h : parseFromTo s₁ s₂ with
  | ok v => simp
  | error e1 => simp [parseFromTo_error_mode s₁ s₂ e1 h]

/-! Totality of each handler: every execution path ends in a returned
string; no exception reaches the host runtime. -/

/-- Totality of `get_conversations`. -/
theorem get_conversations_total (env : Env) (outcome : RemoteOutcome) :
    ∃ r, get_conversations env outcome = .ok r := by
  unfold get_conversations
  rcases pyTry_get_api_token env with h | ⟨t, h⟩ <;> rw [h] <;> exact ⟨_, rfl⟩

/-- Totality of `get_conversations_filtered`. -/
theorem get_conversations_filtered_total (env : Env) (mailbox : String) (limit : Int)
    (team_id : Option String) (outcome : RemoteOutcome) :
    ∃ r, get_conversations_filtered env mailbox limit team_id outcome = .ok r := by
  unfold get_conversations_filtered
  rcases pyTry_get_api_token env with h | ⟨t, h⟩ <;> rw [h]
  · exact ⟨_, rfl⟩
  · cases hp : conversationsFilteredParams mailbox limit team_id <;> simp [hp]

/-- Totality of `get_conversation_details`. -/
theorem get_conversation_details_total (env : Env) (conversation_id : String)
    (outcome : RemoteOutcome) :
    ∃ r, get_conversation_details env conversation_id outcome = .ok r := by
  unfold get_conversation_details
  rcases pyTry_get_api_token env with h | ⟨t, h⟩ <;> rw [h] <;> exact ⟨_, rfl⟩

/-- Totality of `get_conversation_messages`. -/
theorem get_conversation_messages_total (env : Env) (conversation_id : String)
    (limit : Int) (outcome : RemoteOutcome) :
    ∃ r, get_conversation_messages env conversation_id limit outcome = .ok r := by
  unfold get_conversation_messages
  rcases pyTry_get_api_token env with h | ⟨t, h⟩ <;> rw [h] <;> exact ⟨_, rfl⟩

/-- Totality of `get_conversation_comments`. -/
theorem get_conversation_comments_total (env : Env) (conversation_id : String)
    (limit : Int) (outcome : RemoteOutcome) :
    ∃ r, get_conversation_comments env conversation_id limit outcome = .ok r := by
  unfold get_conversation_comments
  rcases pyTry_get_api_token env with h | ⟨t, h⟩ <;> rw [h] <;> exact ⟨_, rfl⟩

/-- Totality of `create_task`. -/
theorem create_task_total (env : Env) (title description : String)
    (organization_id team_id : Option String) (assignee_ids : Option (List String))
    (due_date_timestamp : Option Int) (conversation_id : Option String)
    (is_subtask : Bool) (outcome : RemoteOutcome) :
    ∃ r, create_task env title description organization_id team_id assignee_ids
      due_date_timestamp conversation_id is_subtask outcome = .ok r := by
  unfold create_task
  rcases pyTry_get_api_token env with h | ⟨t, h⟩ <;> rw [h]
  · exact ⟨_, rfl⟩
  · cases hp : create_task_payload title description organization_id team_id
        assignee_ids due_date_timestamp conversation_id is_subtask <;> simp [hp]

/-- Totality of `update_task`. -/
theorem update_task_total (env : Env) (task_id : String)
    (title description state : Option String) (assignee_ids : Option (List String))
    (team_id : Option String) (due_date_timestamp : Option Int)
    (outcome : RemoteOutcome) :
    ∃ r, update_task env task_id title description state assignee_ids team_id
      due_date_timestamp outcome = .ok r := by
  unfold update_task
  rcases pyTry_get_api_token env with h | ⟨t, h⟩ <;> rw [h]
  · exact ⟨_, rfl⟩
  · cases hp : update_task_data title description state assignee_ids team_id
        due_date_timestamp <;> simp [hp]

/-- Totality of `get_message_details`. -/
theorem get_message_details_total (env : Env) (message_id : String)
    (outcome : RemoteOutcome) :
    ∃ r, get_message_details env message_id outcome = .ok r := by
  unfold get_message_details
  rcases pyTry_get_api_token env with h | ⟨t, h⟩ <;> rw [h] <;> exact ⟨_, rfl⟩

/-- Totality of `search_messages_by_email_id`. -/
theorem search_messages_by_email_id_total (env : Env) (email_message_id : String)
    (outcome : RemoteOutcome) :
    ∃ r, search_messages_by_email_id env email_message_id outcome = .ok r := by
  unfold search_messages_by_email_id
  rcases pyTry_get_api_token env with h | ⟨t, h⟩ <;> rw [h] <;> exact ⟨_, rfl⟩

/-- Totality of `create_custom_message`. -/
theorem create_custom_message_total (env : Env)
    (account_id body from_field_data to_fields_data : String)
    (subject conversation_id : Option String) (outcome : RemoteOutcome) :
    ∃ r, create_custom_message env account_id body from_field_data to_fields_data
      subject conversation_id outcome = .ok r := by
  unfold create_custom_message
  rcases pyTry_get_api_token env with h | ⟨t, h⟩ <;> rw [h]
  · exact ⟨_, rfl⟩
  · cases hp : pyTry (parseFromTo from_field_data to_fields_data) PyExc.isJSONDecodeError with
    | ok v => simp [hp]
    | caught e => simp [hp]
    | raised e => exact absurd hp (parseFromTo_not_raised from_field_data to_fields_data e)

/-! Claim theorems. -/

/-- C1: for every tool handler and every combination of parameters,
environment-token state, and remote HTTP/JSON outcome (success, any HTTP
error status, network failure, or unexpected response shape), the handler
returns a plain-text string; no exception ever propagates out of a tool
handler to the host runtime (`.ok` is returned on every input; `.error`,
which would model a propagating exception, never is). -/
theorem tool_handlers_never_raise :
    (∀ env outcome, ∃ r, get_conversations env outcome = .ok r)
  ∧ (∀ env mailbox limit team_id outcome,
      ∃ r, get_conversations_filtered env mailbox limit team_id outcome = .ok r)
  ∧ (∀ env conversation_id outcome,
      ∃ r, get_conversation_details env conversation_id outcome = .ok r)
  ∧ (∀ env conversation_id limit outcome,
      ∃ r, get_conversation_messages env conversation_id limit outcome = .ok r)
  ∧ (∀ env conversation_id limit outcome,
      ∃ r, get_conversation_comments env conversation_id limit outcome = .ok r)
  ∧ (∀ env title description organization_id team_id assignee_ids due_date_timestamp
        conversation_id is_subtask outcome,
      ∃ r, create_task env title description organization_id team_id assignee_ids
        due_date_timestamp conversation_id is_subtask outcome = .ok r)
  ∧ (∀ env task_id title description state assignee_ids team_id due_date_timestamp outcome,
      ∃ r, update_task env task_id title description state assignee_ids team_id
        due_date_timestamp outcome = .ok r)
  ∧ (∀ env message_id outcome, ∃ r, get_message_details env message_id outcome = .ok r)
  ∧ (∀ env email_message_id outcome,
      ∃ r, search_messages_by_email_id env email_message_id outcome = .ok r)
  ∧ (∀ env account_id body from_field_data to_fields_data subject conversation_id outcome,
      ∃ r, create_custom_message env account_id body from_field_data to_fields_data
        subject conversation_id outcome = .ok r) :=
  ⟨get_conversations_total,
   get_conversations_filtered_total,
   get_conversation_details_total,
   get_conversation_messages_total,
   get_conversation_comments_total,
   create_task_total,
   update_task_total,
   get_message_details_total,
   search_messages_by_email_id_total,
   create_custom_message_total⟩

/-- C6: every tool handler, invoked with the credential absent from the
environment, resolves the token as its first step and returns the
user-facing token error with zero network requests — regardless of every
other parameter (in particular, invalid parameters that would otherwise
fail validation still produce the token error, showing the token step runs
first). Token freshness holds by construction of the embedding: each
handler consumes the environment passed to that invocation and no state
is carried between calls. -/
theorem missing_credential_short_circuit :
    (∀ outcome, get_conversations none outcome = .ok ([], missingTokenText))
  ∧ (∀ mailbox limit team_id outcome,
      get_conversations_filtered none mailbox limit team_id outcome = .ok ([], missingTokenText))
  ∧ (∀ conversation_id outcome,
      get_conversation_details none conversation_id outcome = .ok ([], missingTokenText))
  ∧ (∀ conversation_id limit outcome,
      get_conversation_messages none conversation_id limit outcome = .ok ([], missingTokenText))
  ∧ (∀ conversation_id limit outcome,
      get_conversation_comments none conversation_id limit outcome = .ok ([], missingTokenText))
  ∧ (∀ title description organization_id team_id assignee_ids due_date_timestamp
        conversation_id is_subtask outcome,
      create_task none title description organization_id team_id assignee_ids
        due_date_timestamp conversation_id is_subtask outcome = .ok ([], missingTokenText))
  ∧ (∀ task_id title description state assignee_ids team_id due_date_timestamp outcome,
      update_task none task_id title description state assignee_ids team_id
        due_date_timestamp outcome = .ok ([], missingTokenText))
  ∧ (∀ message_id outcome,
      get_message_details none message_id outcome = .ok ([], missingTokenText))
  ∧ (∀ email_message_id outcome,
      search_messages_by_email_id none email_message_id outcome = .ok ([], missingTokenText))
  ∧ (∀ account_id body from_field_data to_fields_data subject conversation_id outcome,
      create_custom_message none account_id body from_field_data to_fields_data
        subject conversation_id outcome = .ok ([], missingTokenText)) :=
  ⟨fun _ => rfl,
   fun _ _ _ _ => rfl,
   fun _ _ => rfl,
   fun _ _ _ => rfl,
   fun _ _ _ => rfl,
   fun _ _ _ _ _ _ _ _ _ => rfl,
   fun _ _ _ _ _ _ _ _ => rfl,
   fun _ _ => rfl,
   fun _ _ => rfl,
   fun _ _ _ _ _ _ _ => rfl⟩

/-- For every recognized mailbox, the params dict of the filtered listing is
built and carries the clamped limit `min limit 50`, whatever the team
filter. -/
theorem filteredParams_limit (mailbox : String) (limit : Int) (team_id : Option String)
    (hv : isValidMailbox mailbox = true) :
    ∃ ps, conversationsFilteredParams mailbox limit team_id = some ps
      ∧ lookupQ "limit" ps = some (.i (min limit 50)) := by
  simp only [isValidMailbox, Bool.or_eq_true, beq_iff_eq] at hv
  rcases hv with ((((((h | h) | h) | h) | h) | h) | h) | h <;> subst h <;>
    cases ht : optTruthy team_id <;>
      simp [conversationsFilteredParams, mailboxFlagParams, ht, lookupQ, List.find?]

/-- With a usable token and recognized params, the filtered listing
issues exactly one GET request carrying those params. -/
theorem get_conversations_filtered_request (tok : String) (h : tok ≠ "")
    (mailbox : String) (limit : Int) (team_id : Option String) (outcome : RemoteOutcome)
    (ps : List (String × QVal))
    (hps : conversationsFilteredParams mailbox limit team_id = some ps) :
    ∃ text, get_conversations_filtered (some tok) mailbox limit team_id outcome
      = .ok ([{ method := .get, url := "https://public.missiveapp.com/v1/conversations",
                bearer := tok, query := ps, body := none, jsonContentType := false }], text) := by
  unfold get_conversations_filtered
  rw [pyTry_token_ok tok h, hps]
  exact ⟨_, rfl⟩

/-- With a usable token, the message listing issues exactly one GET
request with the clamped limit. -/
theorem get_conversation_messages_request (tok : String) (h : tok ≠ "")
    (conversation_id : String) (limit : Int) (outcome : RemoteOutcome) :
    ∃ text, get_conversation_messages (some tok) conversation_id limit outcome
      = .ok ([{ method := .get,
                url := "https://public.missiveapp.com/v1/conversations/" ++ conversation_id ++ "/messages",
                bearer := tok, query := [("limit", .i (min limit 10))],
                body := none, jsonContentType := false }], text) := by
  unfold get_conversation_messages
  rw [pyTry_token_ok tok h]
  exact ⟨_, rfl⟩

/-- With a usable token, the comment listing issues exactly one GET
request with the clamped limit. -/
theorem get_conversation_comments_request (tok : String) (h : tok ≠ "")
    (conversation_id : String) (limit : Int) (outcome : RemoteOutcome) :
    ∃ text, get_conversation_comments (some tok) conversation_id limit outcome
      = .ok ([{ method := .get,
                url := "https://public.missiveapp.com/v1/conversations/" ++ conversation_id ++ "/comments",
                bearer := tok, query := [("limit", .i (min limit 10))],
                body := none, jsonContentType := false }], text) := by
  unfold get_conversation_comments
  rw [pyTry_token_ok tok h]
  exact ⟨_, rfl⟩

/-- C2: for every caller-supplied limit strictly above the endpoint
maximum, the `limit` query parameter of the one outbound request equals
the maximum — 50 for `get_conversations_filtered` (whatever the team
filter, scoped or not) and 10 for `get_conversation_messages` and
`get_conversation_comments` — never the caller-supplied value, and the
over-large limit is never rejected (the call still issues its request). -/
theorem limit_clamped_to_endpoint_maximum
    (tok mailbox conversation_id : String) (limitC limitM : Int)
    (team_id : Option String) (outcome : RemoteOutcome)
    (htok : tok ≠ "") (h50 : 50 < limitC) (h10 : 10 < limitM)
    (hv : isValidMailbox mailbox = true) :
    (∃ req text, get_conversations_filtered (some tok) mailbox limitC team_id outcome
        = .ok ([req], text) ∧ lookupQ "limit" req.query = some (.i 50))
  ∧ (∃ req text, get_conversation_messages (some tok) conversation_id limitM outcome
        = .ok ([req], text) ∧ lookupQ "limit" req.query = some (.i 10))
  ∧ (∃ req text, get_conversation_comments (some tok) conversation_id limitM outcome
        = .ok ([req], text) ∧ lookupQ "limit" req.query = some (.i 10)) := by
  refine ⟨?_, ?_, ?_⟩
  · obtain ⟨ps, hps, hlim⟩ := filteredParams_limit mailbox limitC team_id hv
    obtain ⟨text, hcall⟩ :=
      get_conversations_filtered_request tok htok mailbox limitC team_id outcome ps hps
    refine ⟨_, text, hcall, ?_⟩
    rw [hlim, min_eq_right (le_of_lt h50)]
  · obtain ⟨text, hcall⟩ :=
      get_conversation_messages_request tok htok conversation_id limitM outcome
    refine ⟨_, text, hcall, ?_⟩
    rw [show min limitM 10 = 10 from min_eq_right (le_of_lt h10)]
    rfl
  · obtain ⟨text, hcall⟩ :=
      get_conversation_comments_request tok htok conversation_id limitM outcome
    refine ⟨_, text, hcall, ?_⟩
    rw [show min limitM 10 = 10 from min_eq_right (le_of_lt h10)]
    rfl

/-- Witness for C2 at the concrete inputs: token `"t"`, mailbox
`"inbox"`, limits 60. -/
theorem limit_clamped_to_endpoint_maximum_witness :
    (("t" : String) ≠ "" ∧ (50 : Int) < 60 ∧ (10 : Int) < 60 ∧ isValidMailbox "inbox" = true)
  ∧ ((∃ req text, get_conversations_filtered (some "t") "inbox" 60 none (.httpError 500)
        = .ok ([req], text) ∧ lookupQ "limit" req.query = some (.i 50))
    ∧ (∃ req text, get_conversation_messages (some "t") "c1" 60 (.httpError 500)
        = .ok ([req], text) ∧ lookupQ "limit" req.query = some (.i 10))
    ∧ (∃ req text, get_conversation_comments (some "t") "c1" 60 (.httpError 500)
        = .ok ([req], text) ∧ lookupQ "limit" req.query = some (.i 10))) :=
  ⟨⟨by decide, by decide, by decide, by decide⟩,
   limit_clamped_to_endpoint_maximum "t" "inbox" "c1" 60 60 none (.httpError 500)
     (by decide) (by decide) (by decide) (by decide)⟩

/-- C10: for every caller-supplied limit at or below the endpoint
maximum — including zero and negative values — the `limit` query
parameter sent equals the caller-supplied value unchanged; clamping only
lowers values above the maximum and no lower bound or rejection is
applied (the request is still issued). -/
theorem limit_at_or_below_maximum_passthrough
    (tok mailbox conversation_id : String) (limitC limitM : Int)
    (team_id : Option String) (outcome : RemoteOutcome)
    (htok : tok ≠ "") (h50 : limitC ≤ 50) (h10 : limitM ≤ 10)
    (hv : isValidMailbox mailbox = true) :
    (∃ req text, get_conversations_filtered (some tok) mailbox limitC team_id outcome
        = .ok ([req], text) ∧ lookupQ "limit" req.query = some (.i limitC))
  ∧ (∃ req text, get_conversation_messages (some tok) conversation_id limitM outcome
        = .ok ([req], text) ∧ lookupQ "limit" req.query = some (.i limitM))
  ∧ (∃ req text, get_conversation_comments (some tok) conversation_id limitM outcome
        = .ok ([req], text) ∧ lookupQ "limit" req.query = some (.i limitM)) := by
  refine ⟨?_, ?_, ?_⟩
  · obtain ⟨ps, hps, hlim⟩ := filteredParams_limit mailbox limitC team_id hv
    obtain ⟨text, hcall⟩ :=
      get_conversations_filtered_request tok htok mailbox limitC team_id outcome ps hps
    refine ⟨_, text, hcall, ?_⟩
    rw [hlim, min_eq_left h50]
  · obtain ⟨text, hcall⟩ :=
      get_conversation_messages_request tok htok conversation_id limitM outcome
    refine ⟨_, text, hcall, ?_⟩
    rw [show min limitM 10 = limitM from min_eq_left h10]
    rfl
  · obtain ⟨text, hcall⟩ :=
      get_conversation_comments_request tok htok conversation_id limitM outcome
    refine ⟨_, text, hcall, ?_⟩
    rw [show min limitM 10 = limitM from min_eq_left h10]
    rfl

/-- Witness for C10 at the concrete inputs: limit 0 for the conversation
listing and limit -3 for the message listing. -/
theorem limit_at_or_below_maximum_passthrough_witness :
    (("t" : String) ≠ "" ∧ (0 : Int) ≤ 50 ∧ (-3 : Int) ≤ 10 ∧ isValidMailbox "snoozed" = true)
  ∧ (∃ req text, get_conversations_filtered (some "t") "snoozed" 0 none (.httpError 500)
      = .ok ([req], text) ∧ lookupQ "limit" req.query = some (.i 0)) :=
  ⟨⟨by decide, by decide, by decide, by decide⟩,
   (limit_at_or_below_maximum_passthrough "t" "snoozed" "c1" 0 (-3) none (.httpError 500)
     (by decide) (by decide) (by decide) (by decide)).1⟩

/-- C8: when a (truthy) `team_id` is supplied, the plain mailbox flag is
replaced by a team-scoped query parameter only for team+inbox
(`team_inbox`), team+closed (`team_closed`) and team+all (`team_all`);
for every other valid mailbox combined with a team id, the team scoping
is silently dropped and the request carries only the non-team mailbox
flag (and the clamped limit). -/
theorem team_mailbox_combination_override
    (tok t : String) (limit : Int) (outcome : RemoteOutcome)
    (htok : tok ≠ "") (ht : t ≠ "") :
    (∃ text, get_conversations_filtered (some tok) "inbox" limit (some t) outcome
      = .ok ([{ method := .get, url := "https://public.missiveapp.com/v1/conversations",
                bearer := tok, query := [("team_inbox", .s t), ("limit", .i (min limit 50))],
                body := none, jsonContentType := false }], text))
  ∧ (∃ text, get_conversations_filtered (some tok) "closed" limit (some t) outcome
      = .ok ([{ method := .get, url := "https://public.missiveapp.com/v1/conversations",
                bearer := tok, query := [("team_closed", .s t), ("limit", .i (min limit 50))],
                body := none, jsonContentType := false }], text))
  ∧ (∃ text, get_conversations_filtered (some tok) "all" limit (some t) outcome
      = .ok ([{ method := .get, url := "https://public.missiveapp.com/v1/conversations",
                bearer := tok, query := [("team_all", .s t), ("limit", .i (min limit 50))],
                body := none, jsonContentType := false }], text))
  ∧ (∀ mailbox ∈ (["assigned", "flagged", "trashed", "junked", "snoozed"] : List String),
      ∃ text, get_conversations_filtered (some tok) mailbox limit (some t) outcome
        = .ok ([{ method := .get, url := "https://public.missiveapp.com/v1/conversations",
                  bearer := tok, query := [("limit", .i (min limit 50)), (mailbox, .s "true")],
                  body := none, jsonContentType := false }], text)) := by
  have hot : optTruthy (some t) = true := by simp [optTruthy, ht]
  refine ⟨?_, ?_, ?_, ?_⟩
  · exact get_conversations_filtered_request tok htok "inbox" limit (some t) outcome _
      (by simp [conversationsFilteredParams, mailboxFlagParams, hot])
  · exact get_conversations_filtered_request tok htok "closed" limit (some t) outcome _
      (by simp [conversationsFilteredParams, mailboxFlagParams, hot])
  · exact get_conversations_filtered_request tok htok "all" limit (some t) outcome _
      (by simp [conversationsFilteredParams, mailboxFlagParams, hot])
  · intro mailbox hm
    simp only [List.mem_cons, List.not_mem_nil, or_false] at hm
    rcases hm with h | h | h | h | h <;> subst h <;>
      exact get_conversations_filtered_request tok htok _ limit (some t) outcome _
        (by simp [conversationsFilteredParams, mailboxFlagParams, hot])

/-- Witness for C8 at the concrete inputs: token `"t"`, team `"tm"`,
limit 7. -/
theorem team_mailbox_combination_override_witness :
    (("t" : String) ≠ "" ∧ ("tm" : String) ≠ "")
  ∧ (∃ text, get_conversations_filtered (some "t") "inbox" 7 (some "tm") (.httpError 500)
      = .ok ([{ method := .get, url := "https://public.missiveapp.com/v1/conversations",
                bearer := "t", query := [("team_inbox", .s "tm"), ("limit", .i (min 7 50))],
                body := none, jsonContentType := false }], text)) :=
  ⟨⟨by decide, by decide⟩,
   (team_mailbox_combination_override "t" "tm" 7 (.httpError 500) (by decide) (by decide)).1⟩

/-- An unrecognized mailbox makes the params builder fail (the
validation-error path of the if/elif chain). -/
theorem filteredParams_invalid (mailbox : String) (limit : Int) (team_id : Option String)
    (hv : isValidMailbox mailbox = false) :
    conversationsFilteredParams mailbox limit team_id = none := by
  simp only [isValidMailbox, Bool.or_eq_false_iff, beq_eq_false_iff_ne] at hv
  obtain ⟨⟨⟨⟨⟨⟨⟨h1, h2⟩, h3⟩, h4⟩, h5⟩, h6⟩, h7⟩, h8⟩ := hv
  simp [conversationsFilteredParams, mailboxFlagParams, h1, h2, h3, h4, h5, h6, h7, h8]

/-- An invalid `state` makes the update payload builder fail regardless
of the other fields. -/
theorem update_task_data_invalid_state (title description : Option String) (s : String)
    (assignee_ids : Option (List String)) (team_id : Option String)
    (due_date_timestamp : Option Int)
    (h1 : s ≠ "todo") (h2 : s ≠ "in_progress") (h3 : s ≠ "closed") :
    update_task_data title description (some s) assignee_ids team_id due_date_timestamp
      = .error "Error: state must be one of: todo, in_progress, closed" := by
  unfold update_task_data
  simp [h1, h2, h3]

/-- C3: for every enumerated-parameter value outside its fixed set — a
mailbox outside the eight recognized values, or an `update_task` state
outside todo/in_progress/closed — the tool returns the text validation
error naming the valid options and performs zero network calls. -/
theorem invalid_enum_rejected_before_network
    (tok mailbox s task_id : String) (limit : Int) (team_id : Option String)
    (title description : Option String) (assignee_ids : Option (List String))
    (task_team_id : Option String) (due_date_timestamp : Option Int)
    (outcome : RemoteOutcome) (htok : tok ≠ "")
    (hv : isValidMailbox mailbox = false)
    (h1 : s ≠ "todo") (h2 : s ≠ "in_progress") (h3 : s ≠ "closed") :
    get_conversations_filtered (some tok) mailbox limit team_id outcome
      = .ok ([], s!"Error: Invalid mailbox \x27{mailbox}\x27. Valid options: inbox, all, assigned, closed, flagged, trashed, junked, snoozed")
  ∧ update_task (some tok) task_id title description (some s) assignee_ids task_team_id
      due_date_timestamp outcome
      = .ok ([], "Error: state must be one of: todo, in_progress, closed") := by
  constructor
  · unfold get_conversations_filtered
    rw [pyTry_token_ok tok htok, filteredParams_invalid mailbox limit team_id hv]
  · unfold update_task
    rw [pyTry_token_ok tok htok,
      update_task_data_invalid_state title description s assignee_ids task_team_id
        due_date_timestamp h1 h2 h3]

/-- Witness for C3 at the concrete inputs: mailbox `"bogus"` and state
`"done"`. -/
theorem invalid_enum_rejected_before_network_witness :
    (("t" : String) ≠ "" ∧ isValidMailbox "bogus" = false
      ∧ ("done" : String) ≠ "todo" ∧ ("done" : String) ≠ "in_progress"
      ∧ ("done" : String) ≠ "closed")
  ∧ (get_conversations_filtered (some "t") "bogus" 10 none (.httpError 500)
      = .ok ([], "Error: Invalid mailbox \x27bogus\x27. Valid options: inbox, all, assigned, closed, flagged, trashed, junked, snoozed")
    ∧ update_task (some "t") "task1" none none (some "done") none none none (.httpError 500)
      = .ok ([], "Error: state must be one of: todo, in_progress, closed")) :=
  ⟨⟨by decide, by decide, by decide, by decide, by decide⟩,
   invalid_enum_rejected_before_network "t" "bogus" "done" "task1" 10 none none none none
     none none (.httpError 500) (by decide) (by decide) (by decide) (by decide) (by decide)⟩

/-- A subtask creation with a falsy `conversation_id` fails its
precondition check while assembling the payload. -/
theorem create_task_payload_subtask_missing_conversation
    (title description : String) (organization_id team_id : Option String)
    (assignee_ids : Option (List String)) (due_date_timestamp : Option Int)
    (conversation_id : Option String) (hc : optTruthy conversation_id = false) :
    create_task_payload title description organization_id team_id assignee_ids
      due_date_timestamp conversation_id true
      = .error "Error: conversation_id is required when creating a subtask" := by
  unfold create_task_payload
  simp [hc]

/-- A standalone task creation with falsy `team_id` and `assignee_ids`
fails its precondition check while assembling the payload. -/
theorem create_task_payload_standalone_missing_owner
    (title description : String) (organization_id team_id : Option String)
    (assignee_ids : Option (List String)) (due_date_timestamp : Option Int)
    (conversation_id : Option String)
    (hteam : optTruthy team_id = false) (haids : optListTruthy assignee_ids = false) :
    create_task_payload title description organization_id team_id assignee_ids
      due_date_timestamp conversation_id false
      = .error "Error: Either team_id or assignee_ids is required for standalone tasks" := by
  unfold create_task_payload
  simp [hteam, haids]

/-- C4: the task-write precondition checks run before any network I/O:
a subtask creation without a (truthy) conversation id, a standalone task
creation with neither a (truthy) team id nor a (truthy, non-empty)
assignee list, and a task update with no field provided each return a
text validation error with zero network calls. -/
theorem task_write_preconditions_before_network
    (tok title description task_id : String)
    (organization_id team_id conversation_id : Option String)
    (assignee_ids : Option (List String)) (due_date_timestamp : Option Int)
    (outcome : RemoteOutcome) (htok : tok ≠ "") :
    (optTruthy conversation_id = false →
      create_task (some tok) title description organization_id team_id assignee_ids
        due_date_timestamp conversation_id true outcome
        = .ok ([], "Error: conversation_id is required when creating a subtask"))
  ∧ (optTruthy team_id = false → optListTruthy assignee_ids = false →
      create_task (some tok) title description organization_id team_id assignee_ids
        due_date_timestamp conversation_id false outcome
        = .ok ([], "Error: Either team_id or assignee_ids is required for standalone tasks"))
  ∧ update_task (some tok) task_id none none none none none none outcome
      = .ok ([], "Error: At least one field must be provided to update") := by
  refine ⟨?_, ?_, ?_⟩
  · intro hc
    unfold create_task
    rw [pyTry_token_ok tok htok,
      create_task_payload_subtask_missing_conversation title description organization_id
        team_id assignee_ids due_date_timestamp conversation_id hc]
  · intro hteam haids
    unfold create_task
    rw [pyTry_token_ok tok htok,
      create_task_payload_standalone_missing_owner title description organization_id
        team_id assignee_ids due_date_timestamp conversation_id hteam haids]
  · unfold update_task
    rw [pyTry_token_ok tok htok]
    rfl

/-- Witness for C4 at the concrete inputs: all optional parameters
unset. -/
theorem task_write_preconditions_before_network_witness :
    (("t" : String) ≠ "" ∧ optTruthy none = false ∧ optListTruthy none = false)
  ∧ (create_task (some "t") "T" "" none none none none none true (.httpError 500)
      = .ok ([], "Error: conversation_id is required when creating a subtask")
    ∧ create_task (some "t") "T" "" none none none none none false (.httpError 500)
      = .ok ([], "Error: Either team_id or assignee_ids is required for standalone tasks")
    ∧ update_task (some "t") "task1" none none none none none none (.httpError 500)
      = .ok ([], "Error: At least one field must be provided to update")) :=
  ⟨⟨by decide, by decide, by decide⟩,
   ⟨(task_write_preconditions_before_network "t" "T" "" "task1" none none none none none
       (.httpError 500) (by decide)).1 (by decide),
    (task_write_preconditions_before_network "t" "T" "" "task1" none none none none none
       (.httpError 500) (by decide)).2.1 (by decide) (by decide),
    (task_write_preconditions_before_network "t" "T" "" "task1" none none none none none
       (.httpError 500) (by decide)).2.2⟩⟩

/-- C5: for every `create_custom_message` call in which `from_field_data`
or `to_fields_data` is not syntactically valid JSON, the tool returns the
malformed-input text error (carrying the decoder message) and performs
zero network calls; when both parse, the parsed values are embedded into
the outbound JSON body under `messages.from_field` and
`messages.to_fields`. -/
theorem custom_message_json_parsing_gate
    (tok account_id body from_field_data to_fields_data : String)
    (subject conversation_id : Option String) (outcome : RemoteOutcome)
    (htok : tok ≠ "") :
    (∀ e, loads from_field_data = .error e →
      create_custom_message (some tok) account_id body from_field_data to_fields_data
        subject conversation_id outcome
        = .ok ([], "Error: Invalid JSON format in from_field_data or to_fields_data: "
            ++ e.message))
  ∧ (∀ f e, loads from_field_data = .ok f → loads to_fields_data = .error e →
      create_custom_message (some tok) account_id body from_field_data to_fields_data
        subject conversation_id outcome
        = .ok ([], "Error: Invalid JSON format in from_field_data or to_fields_data: "
            ++ e.message))
  ∧ (∀ f t, loads from_field_data = .ok f → loads to_fields_data = .ok t →
      ∃ text, create_custom_message (some tok) account_id body from_field_data to_fields_data
          subject conversation_id outcome
        = .ok ([{ method := .post, url := "https://public.missiveapp.com/v1/messages",
                  bearer := tok, query := [],
                  body := some (.obj [("messages",
                    .obj (custom_message_data account_id body f t subject conversation_id))]),
                  jsonContentType := true }], text)
      ∧ lookupKey "from_field"
          (custom_message_data account_id body f t subject conversation_id) = some f
      ∧ lookupKey "to_fields"
          (custom_message_data account_id body f t subject conversation_id) = some t) := by
  refine ⟨?_, ?_, ?_⟩
  · intro e he
    have hp : parseFromTo from_field_data to_fields_data = .error e := by
      unfold parseFromTo
      rw [he]
      rfl
    have hc : pyTry (parseFromTo from_field_data to_fields_data) PyExc.isJSONDecodeError
        = .caught e := by
      simp [pyTry, hp, loads_error_mode from_field_data e he]
    unfold create_custom_message
    rw [pyTry_token_ok tok htok, hc]
  · intro f e hf he
    have hp : parseFromTo from_field_data to_fields_data = .error e := by
      unfold parseFromTo
      rw [hf, he]
      rfl
    have hc : pyTry (parseFromTo from_field_data to_fields_data) PyExc.isJSONDecodeError
        = .caught e := by
      simp [pyTry, hp, loads_error_mode to_fields_data e he]
    unfold create_custom_message
    rw [pyTry_token_ok tok htok, hc]
  · intro f t hf ht
    have hp : parseFromTo from_field_data to_fields_data = .ok (f, t) := by
      unfold parseFromTo
      rw [hf, ht]
      rfl
    have hc : pyTry (parseFromTo from_field_data to_fields_data) PyExc.isJSONDecodeError
        = .ok (f, t) := by
      simp [pyTry, hp]
    obtain ⟨text, hcall⟩ :
        ∃ text, create_custom_message (some tok) account_id body from_field_data
            to_fields_data subject conversation_id outcome
          = .ok ([{ method := .post, url := "https://public.missiveapp.com/v1/messages",
                    bearer := tok, query := [],
                    body := some (.obj [("messages",
                      .obj (custom_message_data account_id body f t subject conversation_id))]),
                    jsonContentType := true }], text) := by
      unfold create_custom_message
      rw [pyTry_token_ok tok htok, hc]
      exact ⟨_, rfl⟩
    refine ⟨text, hcall, ?_, ?_⟩
    · cases hs : optTruthy subject <;> cases hcid : optTruthy conversation_id <;>
        simp [custom_message_data, hs, hcid, lookupKey, List.find?]
    · cases hs : optTruthy subject <;> cases hcid : optTruthy conversation_id <;>
        simp [custom_message_data, hs, hcid, lookupKey, List.find?]

/-- Witness for C5 at concrete inputs: an unterminated object literal for
the malformed case, and concrete sender/recipient JSON for the success
case. -/
theorem custom_message_json_parsing_gate_witness :
    (("t" : String) ≠ ""
      ∧ loads "\x7b" = .error (.jsonDecodeError "Expecting property name enclosed in double quotes")
      ∧ loads "\x7b\"name\": \"Jo\"\x7d" = .ok (.obj [("name", .str "Jo")])
      ∧ loads "[\x7b\"name\": \"Ja\"\x7d]" = .ok (.arr [.obj [("name", .str "Ja")]]))
  ∧ (create_custom_message (some "t") "acct" "hello" "\x7b" "[]" none none (.httpError 500)
      = .ok ([], "Error: Invalid JSON format in from_field_data or to_fields_data: Expecting property name enclosed in double quotes"))
  ∧ (∃ text, create_custom_message (some "t") "acct" "hello" "\x7b\"name\": \"Jo\"\x7d"
        "[\x7b\"name\": \"Ja\"\x7d]" none none (.httpError 500)
      = .ok ([{ method := .post, url := "https://public.missiveapp.com/v1/messages",
                bearer := "t", query := [],
                body := some (.obj [("messages",
                  .obj (custom_message_data "acct" "hello" (.obj [("name", .str "Jo")])
                    (.arr [.obj [("name", .str "Ja")]]) none none))]),
                jsonContentType := true }], text)
      ∧ lookupKey "from_field"
          (custom_message_data "acct" "hello" (.obj [("name", .str "Jo")])
            (.arr [.obj [("name", .str "Ja")]]) none none) = some (.obj [("name", .str "Jo")])
      ∧ lookupKey "to_fields"
          (custom_message_data "acct" "hello" (.obj [("name", .str "Jo")])
            (.arr [.obj [("name", .str "Ja")]]) none none) = some (.arr [.obj [("name", .str "Ja")]])) :=
  ⟨⟨by decide, by rfl, by rfl, by rfl⟩,
   (custom_message_json_parsing_gate "t" "acct" "hello" "\x7b" "[]" none none
       (.httpError 500) (by decide)).1
     (.jsonDecodeError "Expecting property name enclosed in double quotes") (by rfl),
   (custom_message_json_parsing_gate "t" "acct" "hello" "\x7b\"name\": \"Jo\"\x7d"
       "[\x7b\"name\": \"Ja\"\x7d]" none none (.httpError 500) (by decide)).2.2
     (.obj [("name", .str "Jo")]) (.arr [.obj [("name", .str "Ja")]]) (by rfl) (by rfl)⟩

/-- C7: in `get_message_details` the message body is HTML-stripped by the
simple tag-removal pass and then truncated to 500 characters, with the
ellipsis appended exactly when the stripped body exceeds 500 characters:
the body `"<p>Hello <b>world</b></p>"` formats to `"Hello world"` with no
ellipsis (both through the body formatter and through the full handler),
and a stripped body longer than 500 characters formats to its first 500
characters followed by `"..."`. -/
theorem message_body_strip_and_truncate :
    fmtMessageBody "<p>Hello <b>world</b></p>" = "Hello world"
  ∧ (∀ body : String, pyLen (stripHtmlTags body) ≤ 500 →
      fmtMessageBody body = stripHtmlTags body)
  ∧ (∀ body : String, 500 < pyLen (stripHtmlTags body) →
      fmtMessageBody body = pyTake (stripHtmlTags body) 500 ++ "...")
  ∧ get_message_details (some "t") "m1"
      (.success (.obj [("messages", .obj [("body", .str "<p>Hello <b>world</b></p>")])]))
    = .ok ([{ method := .get, url := "https://public.missiveapp.com/v1/messages/m1",
              bearer := "t", query := [], body := none, jsonContentType := false }],
           "📨 Message Details:\n\nSubject: No subject\nType: unknown\nMessage ID: None\nBody: Hello world\n") := by
  refine ⟨rfl, ?_, ?_, rfl⟩
  · intro body h
    show pyTake (stripHtmlTags body) 500
        ++ (if 500 < pyLen (stripHtmlTags body) then "..." else "") = stripHtmlTags body
    rw [if_neg (by omega : ¬ 500 < pyLen (stripHtmlTags body)), String.append_empty]
    unfold pyTake
    unfold pyLen at h
    rw [List.take_of_length_le h]
  · intro body h
    show pyTake (stripHtmlTags body) 500
        ++ (if 500 < pyLen (stripHtmlTags body) then "..." else "")
      = pyTake (stripHtmlTags body) 500 ++ "..."
    rw [if_pos h]

/-- Witness for the conditional parts of C7: a 20-character tagless body for
the no-truncation case and a 501-character body for the truncation
case. -/
theorem message_body_strip_and_truncate_witness :
    (pyLen (stripHtmlTags "<p>Hello <b>world</b></p>") ≤ 500
      ∧ 500 < pyLen (stripHtmlTags (String.mk (List.replicate 501 'x'))))
  ∧ (fmtMessageBody "<p>Hello <b>world</b></p>" = stripHtmlTags "<p>Hello <b>world</b></p>"
    ∧ fmtMessageBody (String.mk (List.replicate 501 'x'))
        = pyTake (stripHtmlTags (String.mk (List.replicate 501 'x'))) 500 ++ "...") :=
  ⟨⟨by decide, by decide⟩,
   message_body_strip_and_truncate.2.1 "<p>Hello <b>world</b></p>" (by decide),
   message_body_strip_and_truncate.2.2.1 (String.mk (List.replicate 501 'x')) (by decide)⟩

/-- C9 counterexample: `create_task` tests optional parameters with
Python truthiness (`if due_date_timestamp:`), so a caller-provided
`due_date_timestamp = 0` is omitted from the outbound payload even though
the caller supplied it — the claimed "field appears iff the caller
provided it" fails. Concretely, a standalone task with team `"tm"` and
`due_date_timestamp = 0` produces a `tasks` object with no `due_at`
key. -/
theorem create_task_truthiness_counterexample :
    create_task (some "tok") "T" "" none (some "tm") none (some 0) none false (.httpError 500)
      = .ok ([{ method := .post, url := "https://public.missiveapp.com/v1/tasks",
                bearer := "tok", query := [],
                body := some (.obj [("tasks", .obj
                  [("title", .str "T"), ("description", .str ""), ("team", .str "tm")])]),
                jsonContentType := true }],
             "Error creating task: HTTP 500")
  ∧ lookupKey "due_at"
      [("title", Json.str "T"), ("description", Json.str ""), ("team", Json.str "tm")] = none :=
  ⟨rfl, rfl⟩

set_option maxHeartbeats 2000000 in
/-- C9 (amended): for `update_task` every optional field appears in the
outbound payload iff the caller provided it (the handler tests
`is not None`). For `create_task` the handler tests Python truthiness
instead: an unset optional parameter never appears, and a provided
optional parameter appears iff its value is truthy (a non-empty string, a
non-empty list, a non-zero timestamp); the conversation field appears iff
the task is a subtask. -/
theorem optional_payload_fields_amended :
    (∀ (title description state : Option String) (assignee_ids : Option (List String))
       (team_id : Option String) (due_date_timestamp : Option Int) (td : List (String × Json)),
      update_task_data title description state assignee_ids team_id due_date_timestamp
          = .ok td →
        ((lookupKey "title" td).isSome ↔ title.isSome)
      ∧ ((lookupKey "description" td).isSome ↔ description.isSome)
      ∧ ((lookupKey "state" td).isSome ↔ state.isSome)
      ∧ ((lookupKey "assignees" td).isSome ↔ assignee_ids.isSome)
      ∧ ((lookupKey "team" td).isSome ↔ team_id.isSome)
      ∧ ((lookupKey "due_at" td).isSome ↔ due_date_timestamp.isSome))
  ∧ (∀ (title description : String) (organization_id team_id : Option String)
       (assignee_ids : Option (List String)) (due_date_timestamp : Option Int)
       (conversation_id : Option String) (is_subtask : Bool) (td : List (String × Json)),
      create_task_payload title description organization_id team_id assignee_ids
          due_date_timestamp conversation_id is_subtask = .ok td →
        (lookupKey "organization" td
          = if optTruthy organization_id then some (.str (organization_id.getD "")) else none)
      ∧ (lookupKey "team" td
          = if optTruthy team_id then some (.str (team_id.getD "")) else none)
      ∧ (lookupKey "assignees" td
          = if optListTruthy assignee_ids
            then some (.arr ((assignee_ids.getD []).map .str)) else none)
      ∧ (lookupKey "due_at" td
          = if optIntTruthy due_date_timestamp
            then some (.int (due_date_timestamp.getD 0)) else none)
      ∧ (is_subtask = false → lookupKey "conversation" td = none)
      ∧ (is_subtask = true →
          lookupKey "conversation" td = some (.str (conversation_id.getD "")))) := by
  constructor
  · intro title description state assignee_ids team_id due td h
    cases title <;> cases description <;> cases state <;>
      cases assignee_ids <;> cases team_id <;> cases due <;>
      simp only [update_task_data, update_task_data.updateTaskTail] at h <;>
      (try split_ifs at h) <;>
      (first
        | exact Except.noConfusion h
        | (injection h with h2
           subst h2
           refine ⟨?_, ?_, ?_, ?_, ?_, ?_⟩ <;> simp [lookupKey, List.find?]))
  · intro title description oid tid aids due cid sub td h
    unfold create_task_payload at h
    cases sub <;>
      cases hoid : optTruthy oid <;> cases htid : optTruthy tid <;>
      cases haids : optListTruthy aids <;> cases hdue : optIntTruthy due <;>
      cases hcid : optTruthy cid <;>
      simp only [hoid, htid, haids, hdue, hcid, Bool.not_false, Bool.not_true,
        Bool.false_and, Bool.and_false, Bool.true_and, Bool.and_true,
        if_true, if_false] at h <;>
      (first
        | exact Except.noConfusion h
        | (injection h with h2
           subst h2
           refine ⟨?_, ?_, ?_, ?_, ?_, ?_⟩ <;>
             simp [lookupKey, List.find?, hoid, htid, haids, hdue, hcid]))

/-- Witness for C9 (amended) at concrete inputs: an update providing only
`title` and a zero `due_date_timestamp` (both included, `is not None`
semantics), and a creation providing a team and a non-zero timestamp. -/
theorem optional_payload_fields_amended_witness :
    (update_task_data (some "a") none none none none (some 0)
        = .ok [("title", .str "a"), ("due_at", .int 0)]
      ∧ create_task_payload "T" "" none (some "tm") none (some 5) none false
        = .ok [("title", .str "T"), ("description", .str ""), ("team", .str "tm"),
               ("due_at", .int 5)])
  ∧ (((lookupKey "title" [("title", Json.str "a"), ("due_at", Json.int 0)]).isSome
        ↔ (some "a" : Option String).isSome)
    ∧ ((lookupKey "description" [("title", Json.str "a"), ("due_at", Json.int 0)]).isSome
        ↔ (none : Option String).isSome)
    ∧ ((lookupKey "state" [("title", Json.str "a"), ("due_at", Json.int 0)]).isSome
        ↔ (none : Option String).isSome)
    ∧ ((lookupKey "assignees" [("title", Json.str "a"), ("due_at", Json.int 0)]).isSome
        ↔ (none : Option (List String)).isSome)
    ∧ ((lookupKey "team" [("title", Json.str "a"), ("due_at", Json.int 0)]).isSome
        ↔ (none : Option String).isSome)
    ∧ ((lookupKey "due_at" [("title", Json.str "a"), ("due_at", Json.int 0)]).isSome
        ↔ (some 0 : Option Int).isSome))
  ∧ ((lookupKey "organization"
        [("title", Json.str "T"), ("description", Json.str ""), ("team", Json.str "tm"),
         ("due_at", Json.int 5)]
        = if optTruthy none then some (.str ((none : Option String).getD "")) else none)
    ∧ (lookupKey "team"
        [("title", Json.str "T"), ("description", Json.str ""), ("team", Json.str "tm"),
         ("due_at", Json.int 5)]
        = if optTruthy (some "tm") then some (.str ((some "tm" : Option String).getD "")) else none)
    ∧ (lookupKey "assignees"
        [("title", Json.str "T"), ("description", Json.str ""), ("team", Json.str "tm"),
         ("due_at", Json.int 5)]
        = if optListTruthy none
          then some (.arr (((none : Option (List String)).getD []).map .str)) else none)
    ∧ (lookupKey "due_at"
        [("title", Json.str "T"), ("description", Json.str ""), ("team", Json.str "tm"),
         ("due_at", Json.int 5)]
        = if optIntTruthy (some 5) then some (.int ((some 5 : Option Int).getD 0)) else none)
    ∧ (false = false → lookupKey "conversation"
        [("title", Json.str "T"), ("description", Json.str ""), ("team", Json.str "tm"),
         ("due_at", Json.int 5)] = none)
    ∧ (false = true → lookupKey "conversation"
        [("title", Json.str "T"), ("description", Json.str ""), ("team", Json.str "tm"),
         ("due_at", Json.int 5)] = some (.str ((none : Option String).getD "")))) :=
  ⟨⟨rfl, rfl⟩,
   optional_payload_fields_amended.1 (some "a") none none none none (some 0)
     [("title", Json.str "a"), ("due_at", Json.int 0)] rfl,
   optional_payload_fields_amended.2 "T" "" none (some "tm") none (some 5) none false
     [("title", Json.str "T"), ("description", Json.str ""), ("team", Json.str "tm"),
      ("due_at", Json.int 5)] rfl⟩
